import Mathlib

/-!
Verification development for the ATOgen repository.

This file gives a shallow embedding of `src/app/models.py` (the entity
model, the migration loaders `*.from_dict`, the serialization helpers
`*.to_dict`, and `ATO.validate`) and of `src/app/exporter.py`
(`export_ato_to_text`), and proves theorems about the embedded code.

Modelling conventions:
- Untyped Python values (the external persisted shape) are modelled by the
  inductive type `Val` with string scalars, `None`, lists and
  insertion-ordered dictionaries.  Dictionaries are association lists; in
  values that come from Python dictionaries the keys are unique.
- A Python function that can raise is modelled with an `Option` result;
  `none` marks a raised exception.
- Entity leaves are modelled with `String`, the canonical leaf type of the
  entity model.  A mapping that binds a non-string scalar where the Python
  code would store the value verbatim into a string-typed dataclass field
  is modelled as a failure (`none`), since the result would fall outside
  the typed entity model; all theorems below stay inside the string-leaf
  domain.  Strings are treated as ASCII for case operations.
- Ambient state is made explicit: the current UTC year consulted by
  `ATO.validate` (through `_validate_short_dtg`) is a `year` parameter,
  and the `uuid.uuid4()` fresh-identity source of `Allotment.from_dict`
  and `ATO.from_dict` is a `fresh` parameter.
- `TaskUnit.from_dict` mutates its argument (`dict.setdefault`); this is
  modelled by `TaskUnit.from_dict_state`, which also returns the final
  state of the input mapping.
-/

namespace ATOApp

/-- Untyped value domain: the JSON-like shape handled by the migration
loaders (strings, `None`, lists, insertion-ordered dictionaries). -/
inductive Val where
  | vstr (s : String)
  | vnull
  | vlist (items : List Val)
  | vdict (entries : List (String × Val))

open Val

/-- Python truthiness for the embedded values. -/
def truthy : Val → Bool
  | vstr s => decide (s ≠ "")
  | vnull => false
  | vlist items => !items.isEmpty
  | vdict entries => !entries.isEmpty

/-- First-occurrence lookup in an association list; models Python
dictionary lookup (keys are unique in values coming from Python). -/
def assoc (entries : List (String × Val)) (k : String) : Option Val :=
  match entries with
  | [] => none
  | (k', v) :: rest => if k' = k then some v else assoc rest k

/-- Models `data.get(k)` (default `None`). -/
def pyGet (entries : List (String × Val)) (k : String) : Val :=
  (assoc entries k).getD vnull

/-- Models `data.get(k, d)`. -/
def pyGetD (entries : List (String × Val)) (k : String) (d : Val) : Val :=
  (assoc entries k).getD d

/-- Models the Python `or` operator on embedded values. -/
def pyOr (a b : Val) : Val :=
  if truthy a then a else b

/-- Models `k in data` for a dictionary. -/
def hasKey (entries : List (String × Val)) (k : String) : Bool :=
  (assoc entries k).isSome

/-- Models `dict.setdefault(k, v)`: inserts `k ↦ v` at the end when `k` is
absent, otherwise leaves the dictionary unchanged. -/
def setdefault (entries : List (String × Val)) (k : String) (v : Val) :
    List (String × Val) :=
  if hasKey entries k then entries else entries ++ [(k, v)]

/-- Replaces the value bound to an existing key (first occurrence). -/
def setEntry (entries : List (String × Val)) (k : String) (v : Val) :
    List (String × Val) :=
  match entries with
  | [] => []
  | (k', v') :: rest =>
      if k' = k then (k', v) :: rest else (k', v') :: setEntry rest k v

/-- Models `str.upper()` (ASCII). -/
def pyUpper (s : String) : String :=
  String.mk (s.data.map Char.toUpper)

/-- Python whitespace for `str.strip()` (ASCII). -/
def pyIsSpace (c : Char) : Bool :=
  c = ' ' || c = '\t' || c = '\n' || c = '\r' || c = '\x0b' || c = '\x0c'

/-- Models `str.strip()`. -/
def pyStrip (s : String) : String :=
  String.mk (((s.data.dropWhile pyIsSpace).reverse.dropWhile pyIsSpace).reverse)

/-- Models `sep.join(parts)`. -/
def pyJoin (sep : String) : List String → String
  | [] => ""
  | p :: rest => rest.foldl (fun acc x => acc ++ sep ++ x) p

/-- Models `str.isdigit()` (ASCII digits). -/
def pyIsDigitStr (s : String) : Bool :=
  decide (s ≠ "") && s.data.all Char.isDigit

/-- Models the Python `or` with a string right operand, for string-typed
fields (`s or d`). -/
def pyOrStr (s d : String) : String :=
  if s = "" then d else s

/-- Extracts the string of a string scalar; `none` models a value that the
embedding does not admit in a string-typed field. -/
def asStr : Val → Option String
  | vstr s => some s
  | _ => none

/-- Models `data.get(k, d)` stored into a string field. -/
def strGetD (entries : List (String × Val)) (k : String) (d : String) :
    Option String :=
  match assoc entries k with
  | none => some d
  | some (vstr s) => some s
  | some _ => none

/-- Models `value or ""` stored into a string field. -/
def strOrEmpty (v : Val) : Option String :=
  if truthy v then asStr v else some ""

/-- Requires a dictionary; `none` models the `TypeError`/`AttributeError`
Python raises when a non-mapping stands where a mapping is used. -/
def asDict : Val → Option (List (String × Val))
  | vdict entries => some entries
  | _ => none

/-- An optional list entry of the root mapping: absent means `[]`,
anything but a list where the loader iterates is a failure. -/
def optListItems : Option Val → Option (List Val)
  | none => some []
  | some (vlist items) => some items
  | some _ => none

/-- Models `raw_count in (None, "")` from `Allotment.from_dict`. -/
def isNoneOrEmptyStr : Val → Bool
  | vnull => true
  | vstr s => s == ""
  | _ => false

/-- Models `str(raw).strip() if raw not in (None, "") else ""` stored into
a string field. -/
def strippedOrEmpty (raw : Val) : Option String :=
  if isNoneOrEmptyStr raw then some "" else (asStr raw).map pyStrip

/-- Three-letter month abbreviations produced by `strftime("%b")` in the C
locale, upper-cased. -/
def monthAbbrs : List String :=
  ["JAN", "FEB", "MAR", "APR", "MAY", "JUN",
   "JUL", "AUG", "SEP", "OCT", "NOV", "DEC"]

/-- Month lengths; February is adjusted for leap years by `daysInMonth`. -/
def monthLengths : List Nat := [31, 28, 31, 30, 31, 30, 31, 31, 30, 31, 30, 31]

def isLeapYear (y : Nat) : Bool :=
  y % 4 = 0 && (y % 100 ≠ 0 || y % 400 = 0)

/-- Number of days of month `m` (1-based) in year `y`. -/
def daysInMonth (m y : Nat) : Nat :=
  if m = 2 && isLeapYear y then 29 else (monthLengths.getD (m - 1) 0)

def digitVal (c : Char) : Nat := c.toNat - 48

def d2 (a b : Char) : Nat := digitVal a * 10 + digitVal b

def pad2 (n : Nat) : String :=
  if n < 10 then "0" ++ Nat.repr n else Nat.repr n

def pad4 (n : Nat) : String :=
  if n < 10 then "000" ++ Nat.repr n
  else if n < 100 then "00" ++ Nat.repr n
  else if n < 1000 then "0" ++ Nat.repr n
  else Nat.repr n

/-- Splits an ISO timestamp `YYYY-MM-DD[<sep>HH:MM[:SS]]` into its numeric
parts; the embedding of `datetime.fromisoformat` covers this common shape
and treats everything else as unparseable. -/
def parseIsoParts : List Char → Option (Nat × Nat × Nat × Nat × Nat × Nat)
  | [y1, y2, y3, y4, '-', m1, m2, '-', r1, r2] =>
      if [y1, y2, y3, y4, m1, m2, r1, r2].all Char.isDigit then
        some (d2 y1 y2 * 100 + d2 y3 y4, d2 m1 m2, d2 r1 r2, 0, 0, 0)
      else none
  | [y1, y2, y3, y4, '-', m1, m2, '-', r1, r2, _, h1, h2, ':', n1, n2] =>
      if [y1, y2, y3, y4, m1, m2, r1, r2, h1, h2, n1, n2].all Char.isDigit then
        some (d2 y1 y2 * 100 + d2 y3 y4, d2 m1 m2, d2 r1 r2, d2 h1 h2, d2 n1 n2, 0)
      else none
  | [y1, y2, y3, y4, '-', m1, m2, '-', r1, r2, _, h1, h2, ':', n1, n2, ':', s1, s2] =>
      if [y1, y2, y3, y4, m1, m2, r1, r2, h1, h2, n1, n2, s1, s2].all Char.isDigit then
        some (d2 y1 y2 * 100 + d2 y3 y4, d2 m1 m2, d2 r1 r2, d2 h1 h2, d2 n1 n2, d2 s1 s2)
      else none
  | _ => none

/-- Models `Header.from_dict._convert_iso` on a string: format the parsed
timestamp as `%d%H%MZ%b%Y` upper-cased, or return the value unchanged when
parsing fails (the `except ValueError` branch). -/
def convertIso (s : String) : String :=
  match parseIsoParts s.data with
  | some (y, mo, dy, hh, mi, ss) =>
      if 1 ≤ y && 1 ≤ mo && mo ≤ 12 && 1 ≤ dy && dy ≤ daysInMonth mo y
          && hh < 24 && mi < 60 && ss < 60 then
        pad2 dy ++ pad2 hh ++ pad2 mi ++ "Z" ++ (monthAbbrs.getD (mo - 1) "") ++ pad4 y
      else s
  | none => s

/-- Lifts `_convert_iso` to an embedded value (`None` and `""` give `""`). -/
def convertIsoVal (v : Val) : Option String :=
  if truthy v then (asStr v).map convertIso else some ""

/-- Models `data.get(k1, data.get(k2, d))` stored into a string field. -/
def strGet2D (es : List (String × Val)) (k1 k2 : String) (d : String) :
    Option String :=
  match assoc es k1 with
  | some (vstr s) => some s
  | some _ => none
  | none => strGetD es k2 d

/-- String stored in field `k`, `""` when absent; only consulted behind the
`wfFlat` gate, where every value is a string. -/
def sfield (es : List (String × Val)) (k : String) : String :=
  match assoc es k with
  | some (vstr s) => s
  | _ => ""

/-- Gate for `cls(**data)`: every key must be a declared field name (else
Python raises `TypeError`), and the embedding admits only string values. -/
def wfFlat (allowed : List String) (es : List (String × Val)) : Bool :=
  es.all fun p => allowed.contains p.1 && (asStr p.2).isSome

/-! Entity structures, mirroring the dataclasses of `src/app/models.py`
(field names and defaults are the source's). -/

structure Header where
  operation_identification_data : String := ""
  msg_text_format_identifier : String := "ATO"
  msg_originator : String := ""
  msg_serial : String := ""
  msg_month : String := "JAN"
  msg_qualifier : String := ""
  acknowledgement_required : String := "NO"
  timeframe_from : String := ""
  timeframe_to : String := ""
  heading : String := "TASKING"
deriving DecidableEq

structure Allotment where
  id : String
  unit_designator : String := ""
  icao_base_code : String := ""
  asset_count : String := ""
  aircraft_type_model : String := ""
deriving DecidableEq

structure AircraftMissionData where
  mission_number : String := ""
  amc_mission_number : String := ""
  package_identification : String := ""
  mission_commander : String := ""
  primary_mission_type : String := ""
  secondary_mission_type : String := ""
  alert_status : String := ""
  icao_departure_location : String := ""
  icao_recovery_base : String := ""
deriving DecidableEq

structure IndividualAircraftMissionData where
  number_of_aircraft : String := ""
  aircraft_call_sign : String := ""
  primary_configuration_code : String := ""
  secondary_configuration_code : String := ""
  iff_mode1 : String := ""
  iff_mode2 : String := ""
  iff_mode3 : String := ""
deriving DecidableEq

structure GroundTargetLocation where
  designator : String := ""
  day_time_month_tasked : String := ""
  not_earlier_than : String := ""
  not_later_than : String := ""
  target_facility_name : String := ""
  target_identifier : String := ""
  target_type : String := ""
  dmpi_description : String := ""
  dmpi_lat_long : String := ""
  geodetic_datum : String := ""
  dmpi_elevation : String := ""
  component_target_identifier : String := ""
deriving DecidableEq

structure ControlOfAirAssets where
  agency_type : String := ""
  call_sign : String := ""
  primary_frequency : String := ""
  secondary_frequency : String := ""
  report_in_point : String := ""
deriving DecidableEq

structure TaskUnit where
  allotment_id : String := ""
  amsndat : AircraftMissionData := {}
  msnacft : IndividualAircraftMissionData := {}
  gtgtloc : GroundTargetLocation := {}
  controla : ControlOfAirAssets := {}
  amplification : String := ""
  narrative : String := ""
  unit_name : String := ""
  aircraft_type : String := ""
deriving DecidableEq

structure SupportControlEntry where
  role : String := ""
  unit : String := ""
  frequency : String := ""
  contact : String := ""
  notes : String := ""
deriving DecidableEq

structure SpinInstruction where
  title : String := ""
  content : String := ""
deriving DecidableEq

structure Footer where
  classification : String := ""
  authority : String := ""
  prepared_by : String := ""
  release_instructions : String := ""
deriving DecidableEq

structure ATO where
  id : String
  name : String
  header : Header := {}
  allotments : List Allotment := []
  task_units : List TaskUnit := []
  support_control : List SupportControlEntry := []
  spins : List SpinInstruction := []
  footer : Footer := {}
deriving DecidableEq

/-! Migration loaders (`*.from_dict`), one per entity, translated from
`src/app/models.py`.  Non-mapping truthy inputs where Python raises
(`.get` on a non-dict, `**` of a non-mapping) are `none`.  Iterating a
non-list value where `ATO.from_dict` expects a list is also modelled as a
failure. -/

/-- Models `data.get(cur) or _convert_iso(data.get(leg))` stored into a
string field (`timeframe_from` / `timeframe_to`). -/
def hdrTimeframe (es : List (String × Val)) (cur leg : String) : Option String :=
  if truthy (pyGet es cur) then asStr (pyGet es cur)
  else convertIsoVal (pyGet es leg)

def Header.from_dict (v : Val) : Option Header :=
  if truthy v = false then some {} else
  match v with
  | vdict es => do
      let opid ← strGet2D es "operation_identification_data" "operation_name" ""
      let fmtid ← strGet2D es "msg_text_format_identifier" "title" "ATO"
      let orig ← strGet2D es "msg_originator" "originating_unit" ""
      let serial ← strGetD es "msg_serial" ""
      let month ← (asStr (pyOr (pyGet es "msg_month") (vstr "JAN"))).map pyUpper
      let qual ← strGetD es "msg_qualifier" ""
      let ack ←
        (asStr (pyOr (pyGetD es "acknowledgement_required" (vstr "NO")) (vstr "NO"))).map pyUpper
      let tfrom ← hdrTimeframe es "timeframe_from" "effective_time_utc"
      let tto ← hdrTimeframe es "timeframe_to" "expiry_time_utc"
      let heading ← strGetD es "heading" "TASKING"
      some { operation_identification_data := opid,
             msg_text_format_identifier := fmtid,
             msg_originator := orig,
             msg_serial := serial,
             msg_month := month,
             msg_qualifier := qual,
             acknowledgement_required := ack,
             timeframe_from := tfrom,
             timeframe_to := tto,
             heading := heading }
  | _ => none

/-- `Allotment.from_dict`; `freshId` models the `str(uuid.uuid4())`
generated when the mapping has no `"id"` key (or is falsy). -/
def Allotment.from_dict (freshId : String) (v : Val) : Option Allotment :=
  if truthy v = false then some { id := freshId } else
  match v with
  | vdict es0 =>
      let es := if hasKey es0 "id" then es0 else es0 ++ [("id", vstr freshId)]
      do
      let id ← strGetD es "id" freshId
      let unit ← asStr (pyOr (pyGet es "unit_designator") (pyGetD es "resource_name" (vstr "")))
      let icao ←
        (asStr (pyOr (pyOr (pyGet es "icao_base_code") (pyGetD es "icao" (vstr ""))) (vstr ""))).map
          pyUpper
      let rawCount :=
        pyOr (pyOr (pyGet es "asset_count") (pyGet es "count_of_assets"))
          (pyGetD es "quantity" (vstr ""))
      let count ← strippedOrEmpty rawCount
      let rawAircraft :=
        pyOr (pyOr (pyGet es "aircraft_type_model") (pyGet es "aircraft_type"))
          (pyGetD es "mission" (vstr ""))
      let actyp ← strippedOrEmpty rawAircraft
      some { id := id, unit_designator := unit, icao_base_code := icao,
             asset_count := count, aircraft_type_model := actyp }
  | _ => none

def amsndatKeys : List String :=
  ["mission_number", "amc_mission_number", "package_identification",
   "mission_commander", "primary_mission_type", "secondary_mission_type",
   "alert_status", "icao_departure_location", "icao_recovery_base"]

def msnacftKeys : List String :=
  ["number_of_aircraft", "aircraft_call_sign", "primary_configuration_code",
   "secondary_configuration_code", "iff_mode1", "iff_mode2", "iff_mode3"]

def gtgtlocKeys : List String :=
  ["designator", "day_time_month_tasked", "not_earlier_than", "not_later_than",
   "target_facility_name", "target_identifier", "target_type",
   "dmpi_description", "dmpi_lat_long", "geodetic_datum", "dmpi_elevation",
   "component_target_identifier"]

def controlaKeys : List String :=
  ["agency_type", "call_sign", "primary_frequency", "secondary_frequency",
   "report_in_point"]

def supportKeys : List String := ["role", "unit", "frequency", "contact", "notes"]

def spinKeys : List String := ["title", "content"]

def footerKeys : List String :=
  ["classification", "authority", "prepared_by", "release_instructions"]

def AircraftMissionData.from_dict (v : Val) : Option AircraftMissionData :=
  if truthy v = false then some {} else
  match v with
  | vdict es =>
      if wfFlat amsndatKeys es then
        some { mission_number := sfield es "mission_number",
               amc_mission_number := sfield es "amc_mission_number",
               package_identification := sfield es "package_identification",
               mission_commander := sfield es "mission_commander",
               primary_mission_type := sfield es "primary_mission_type",
               secondary_mission_type := sfield es "secondary_mission_type",
               alert_status := sfield es "alert_status",
               icao_departure_location := sfield es "icao_departure_location",
               icao_recovery_base := sfield es "icao_recovery_base" }
      else none
  | _ => none

def IndividualAircraftMissionData.from_dict (v : Val) :
    Option IndividualAircraftMissionData :=
  if truthy v = false then some {} else
  match v with
  | vdict es =>
      if wfFlat msnacftKeys es then
        some { number_of_aircraft := sfield es "number_of_aircraft",
               aircraft_call_sign := sfield es "aircraft_call_sign",
               primary_configuration_code := sfield es "primary_configuration_code",
               secondary_configuration_code := sfield es "secondary_configuration_code",
               iff_mode1 := sfield es "iff_mode1",
               iff_mode2 := sfield es "iff_mode2",
               iff_mode3 := sfield es "iff_mode3" }
      else none
  | _ => none

def GroundTargetLocation.from_dict (v : Val) : Option GroundTargetLocation :=
  if truthy v = false then some {} else
  match v with
  | vdict es =>
      if wfFlat gtgtlocKeys es then
        some { designator := sfield es "designator",
               day_time_month_tasked := sfield es "day_time_month_tasked",
               not_earlier_than := sfield es "not_earlier_than",
               not_later_than := sfield es "not_later_than",
               target_facility_name := sfield es "target_facility_name",
               target_identifier := sfield es "target_identifier",
               target_type := sfield es "target_type",
               dmpi_description := sfield es "dmpi_description",
               dmpi_lat_long := sfield es "dmpi_lat_long",
               geodetic_datum := sfield es "geodetic_datum",
               dmpi_elevation := sfield es "dmpi_elevation",
               component_target_identifier := sfield es "component_target_identifier" }
      else none
  | _ => none

def ControlOfAirAssets.from_dict (v : Val) : Option ControlOfAirAssets :=
  if truthy v = false then some {} else
  match v with
  | vdict es =>
      if wfFlat controlaKeys es then
        some { agency_type := sfield es "agency_type",
               call_sign := sfield es "call_sign",
               primary_frequency := sfield es "primary_frequency",
               secondary_frequency := sfield es "secondary_frequency",
               report_in_point := sfield es "report_in_point" }
      else none
  | _ => none

/-- `SupportControlEntry.from_dict` is a bare `cls(**data)`: no falsy
guard, so a non-mapping (including `None`) raises. -/
def SupportControlEntry.from_dict (v : Val) : Option SupportControlEntry :=
  match v with
  | vdict es =>
      if wfFlat supportKeys es then
        some { role := sfield es "role", unit := sfield es "unit",
               frequency := sfield es "frequency", contact := sfield es "contact",
               notes := sfield es "notes" }
      else none
  | _ => none

def SpinInstruction.from_dict (v : Val) : Option SpinInstruction :=
  match v with
  | vdict es =>
      if wfFlat spinKeys es then
        some { title := sfield es "title", content := sfield es "content" }
      else none
  | _ => none

def Footer.from_dict (v : Val) : Option Footer :=
  match v with
  | vdict es =>
      if wfFlat footerKeys es then
        some { classification := sfield es "classification",
               authority := sfield es "authority",
               prepared_by := sfield es "prepared_by",
               release_instructions := sfield es "release_instructions" }
      else none
  | _ => none

/-- Writes back a possibly mutated nested dictionary when it aliased an
entry of the input mapping (`data.get(k)` was truthy, hence the very
object stored under `k`). -/
def updAlias (es : List (String × Val)) (k : String) (orig newV : Val) :
    List (String × Val) :=
  if truthy orig then setEntry es k newV else es

/-- `TaskUnit.from_dict`, including the externally visible mutation the
Python code performs through `dict.setdefault` on the input mapping and on
its nested segment dictionaries.  The second component of the result is
the final state of the input mapping. -/
def TaskUnit.from_dict_state (d : Val) : Option (TaskUnit × Val) :=
  if truthy d = false then some ({}, d) else
  match d with
  | vdict es => do
      let ad ← asDict (pyOr (pyGet es "amsndat") (vdict []))
      let md ← asDict (pyOr (pyGet es "msnacft") (vdict []))
      let gd ← asDict (pyOr (pyGet es "gtgtloc") (vdict []))
      let cd ← asDict (pyOr (pyGet es "controla") (vdict []))
      let aidVal := pyOr (pyGet es "allotment_id") (pyGetD es "resource_id" (vstr ""))
      let ad1 :=
        if hasKey es "mission_type" then
          setdefault ad "primary_mission_type" (pyGetD es "mission_type" (vstr ""))
        else ad
      let md1 :=
        if hasKey es "callsign" then
          setdefault md "aircraft_call_sign" (pyGetD es "callsign" (vstr ""))
        else md
      let es1 :=
        if hasKey es "remarks" then
          setdefault es "narrative" (pyGetD es "remarks" (vstr ""))
        else es
      let gd1 :=
        if hasKey es1 "target" then
          setdefault gd "target_facility_name" (pyGetD es1 "target" (vstr ""))
        else gd
      let cd1 :=
        if hasKey es1 "control_agency" then
          setdefault cd "call_sign" (pyGetD es1 "control_agency" (vstr ""))
        else cd
      let md2 :=
        if hasKey es1 "tail_numbers" then
          setdefault md1 "primary_configuration_code" (pyGetD es1 "tail_numbers" (vstr ""))
        else md1
      let md3 :=
        if hasKey es1 "iff_code" then
          setdefault md2 "iff_mode3" (pyGetD es1 "iff_code" (vstr ""))
        else md2
      let ad2 :=
        if hasKey es1 "takeoff_time_utc" then
          setdefault ad1 "mission_number" (pyGetD es1 "takeoff_time_utc" (vstr ""))
        else ad1
      let aid ← asStr aidVal
      let amsndat ← AircraftMissionData.from_dict (vdict ad2)
      let msnacft ← IndividualAircraftMissionData.from_dict (vdict md3)
      let gtgtloc ← GroundTargetLocation.from_dict (vdict gd1)
      let controla ← ControlOfAirAssets.from_dict (vdict cd1)
      let ampn ← strOrEmpty (pyGetD es1 "amplification" (pyGetD es1 "ampn" (vstr "")))
      let narr ← strOrEmpty (pyGetD es1 "narrative" (pyGetD es1 "remarks" (vstr "")))
      let un ← strGetD es1 "unit_name" ""
      let aty ← strGetD es1 "aircraft_type" ""
      let esF :=
        updAlias
          (updAlias
            (updAlias (updAlias es1 "amsndat" (pyGet es "amsndat") (vdict ad2))
              "msnacft" (pyGet es "msnacft") (vdict md3))
            "gtgtloc" (pyGet es "gtgtloc") (vdict gd1))
          "controla" (pyGet es "controla") (vdict cd1)
      some ({ allotment_id := aid, amsndat := amsndat, msnacft := msnacft,
              gtgtloc := gtgtloc, controla := controla, amplification := ampn,
              narrative := narr, unit_name := un, aircraft_type := aty },
            vdict esF)
  | _ => none

/-- The value-level part of `TaskUnit.from_dict`. -/
def TaskUnit.from_dict (v : Val) : Option TaskUnit :=
  (TaskUnit.from_dict_state v).map Prod.fst

/-- `ATO.from_dict`; `fresh` models the fresh-identity source used for
allotments whose mapping lacks an `"id"` key (one candidate per list
position).  `data["id"]` raises `KeyError` when the root mapping has no
`"id"`. -/
def ATO.from_dict (fresh : Nat → String) (v : Val) : Option ATO :=
  match v with
  | vdict es => do
      let id ←
        match assoc es "id" with
        | some (vstr s) => some s
        | _ => none
      let name ← strGetD es "name" "ATO"
      let header ← Header.from_dict (pyGetD es "header" (vdict []))
      let allotmentItems ← optListItems (assoc es "allotments")
      let allotments ← allotmentItems.enum.mapM fun p => Allotment.from_dict (fresh p.1) p.2
      let taskUnitItems ← optListItems (assoc es "task_units")
      let task_units ← taskUnitItems.mapM TaskUnit.from_dict
      let supportItems ← optListItems (assoc es "support_control")
      let support_control ← supportItems.mapM SupportControlEntry.from_dict
      let spinItems ← optListItems (assoc es "spins")
      let spins ← spinItems.mapM SpinInstruction.from_dict
      let footer ← Footer.from_dict (pyGetD es "footer" (vdict []))
      some { id := id, name := name, header := header, allotments := allotments,
             task_units := task_units, support_control := support_control,
             spins := spins, footer := footer }
  | _ => none

/-! Canonical dictionary forms (`*.to_dict`), in dataclass field order. -/

def Header.to_dict (h : Header) : Val :=
  vdict [("operation_identification_data", vstr h.operation_identification_data),
         ("msg_text_format_identifier", vstr h.msg_text_format_identifier),
         ("msg_originator", vstr h.msg_originator),
         ("msg_serial", vstr h.msg_serial),
         ("msg_month", vstr h.msg_month),
         ("msg_qualifier", vstr h.msg_qualifier),
         ("acknowledgement_required", vstr h.acknowledgement_required),
         ("timeframe_from", vstr h.timeframe_from),
         ("timeframe_to", vstr h.timeframe_to),
         ("heading", vstr h.heading)]

def Allotment.to_dict (al : Allotment) : Val :=
  vdict [("id", vstr al.id),
         ("unit_designator", vstr al.unit_designator),
         ("icao_base_code", vstr al.icao_base_code),
         ("asset_count", vstr al.asset_count),
         ("aircraft_type_model", vstr al.aircraft_type_model)]

def AircraftMissionData.to_dict (x : AircraftMissionData) : Val :=
  vdict [("mission_number", vstr x.mission_number),
         ("amc_mission_number", vstr x.amc_mission_number),
         ("package_identification", vstr x.package_identification),
         ("mission_commander", vstr x.mission_commander),
         ("primary_mission_type", vstr x.primary_mission_type),
         ("secondary_mission_type", vstr x.secondary_mission_type),
         ("alert_status", vstr x.alert_status),
         ("icao_departure_location", vstr x.icao_departure_location),
         ("icao_recovery_base", vstr x.icao_recovery_base)]

def IndividualAircraftMissionData.to_dict (x : IndividualAircraftMissionData) : Val :=
  vdict [("number_of_aircraft", vstr x.number_of_aircraft),
         ("aircraft_call_sign", vstr x.aircraft_call_sign),
         ("primary_configuration_code", vstr x.primary_configuration_code),
         ("secondary_configuration_code", vstr x.secondary_configuration_code),
         ("iff_mode1", vstr x.iff_mode1),
         ("iff_mode2", vstr x.iff_mode2),
         ("iff_mode3", vstr x.iff_mode3)]

def GroundTargetLocation.to_dict (x : GroundTargetLocation) : Val :=
  vdict [("designator", vstr x.designator),
         ("day_time_month_tasked", vstr x.day_time_month_tasked),
         ("not_earlier_than", vstr x.not_earlier_than),
         ("not_later_than", vstr x.not_later_than),
         ("target_facility_name", vstr x.target_facility_name),
         ("target_identifier", vstr x.target_identifier),
         ("target_type", vstr x.target_type),
         ("dmpi_description", vstr x.dmpi_description),
         ("dmpi_lat_long", vstr x.dmpi_lat_long),
         ("geodetic_datum", vstr x.geodetic_datum),
         ("dmpi_elevation", vstr x.dmpi_elevation),
         ("component_target_identifier", vstr x.component_target_identifier)]

def ControlOfAirAssets.to_dict (x : ControlOfAirAssets) : Val :=
  vdict [("agency_type", vstr x.agency_type),
         ("call_sign", vstr x.call_sign),
         ("primary_frequency", vstr x.primary_frequency),
         ("secondary_frequency", vstr x.secondary_frequency),
         ("report_in_point", vstr x.report_in_point)]

def TaskUnit.to_dict (u : TaskUnit) : Val :=
  vdict [("allotment_id", vstr u.allotment_id),
         ("amsndat", u.amsndat.to_dict),
         ("msnacft", u.msnacft.to_dict),
         ("gtgtloc", u.gtgtloc.to_dict),
         ("controla", u.controla.to_dict),
         ("amplification", vstr u.amplification),
         ("narrative", vstr u.narrative),
         ("unit_name", vstr u.unit_name),
         ("aircraft_type", vstr u.aircraft_type)]

def SupportControlEntry.to_dict (s : SupportControlEntry) : Val :=
  vdict [("role", vstr s.role), ("unit", vstr s.unit),
         ("frequency", vstr s.frequency), ("contact", vstr s.contact),
         ("notes", vstr s.notes)]

def SpinInstruction.to_dict (s : SpinInstruction) : Val :=
  vdict [("title", vstr s.title), ("content", vstr s.content)]

def Footer.to_dict (f : Footer) : Val :=
  vdict [("classification", vstr f.classification),
         ("authority", vstr f.authority),
         ("prepared_by", vstr f.prepared_by),
         ("release_instructions", vstr f.release_instructions)]

def ATO.to_dict (a : ATO) : Val :=
  vdict [("id", vstr a.id),
         ("name", vstr a.name),
         ("header", a.header.to_dict),
         ("allotments", vlist (a.allotments.map Allotment.to_dict)),
         ("task_units", vlist (a.task_units.map TaskUnit.to_dict)),
         ("support_control", vlist (a.support_control.map SupportControlEntry.to_dict)),
         ("spins", vlist (a.spins.map SpinInstruction.to_dict)),
         ("footer", a.footer.to_dict)]

/-- The mission-type vocabulary `MISSION_TYPE_OPTIONS` of
`src/app/models.py` (code, label pairs). -/
def MISSION_TYPE_OPTIONS : List (String × String) :=
  [("AAW", "ANTI-AIR WARFARE"),
   ("ABC", "AIRBORNE COMMAND & CONTROL CENTER"),
   ("ADMLF", "ADMINISTRATIVE LIFT"),
   ("AEW", "AIRBORNE EARLY WARNING"),
   ("AH", "ATTACK HELICOPTER"),
   ("AI", "AIR INTERDICTION"),
   ("AIREV", "AEROMEDICAL EVACUATION"),
   ("AMC", "AIRBORNE MISSION COMMANDER"),
   ("AR", "AERIAL REFUELING"),
   ("ASARS", "ADVANCED SYNTHETIC APERTURE RADAR SYSTEM"),
   ("ASW", "ANTISUBMARINE WARFARE"),
   ("ATK", "ATTACK"),
   ("BAI", "BATTLEFIELD AIR INTERDICTION"),
   ("BCAP", "BOAT CAP"),
   ("BRCAP", "BARRIER COMBAT AIR PATROL"),
   ("CAP", "COMBAT AIR PATROL"),
   ("CAS", "CLOSE AIR SUPPORT"),
   ("CDS", "CONTAINER DELIVERY SYSTEM"),
   ("CHAFF", "CHAFF"),
   ("CHANL", "CHANNEL MISSION"),
   ("CINT", "COMMUNICATION, INTELLIGENCE, COLLECTION"),
   ("CMD", "COMMAND AND CONTROL"),
   ("CNTNG", "CONTINGENCY"),
   ("COMM", "COMMUNICATIONS RELAY"),
   ("CSAR", "COMBAT SEARCH AND RESCUE"),
   ("CURFT", "COURIER FLIGHT"),
   ("DCA", "DEFENSIVE COUNTERAIR"),
   ("DSUPR", "DEFENSIVE SUPPRESSION"),
   ("DVSPT", "DISTINGUISHED VISITOR SUPPORT"),
   ("EA", "ELECTRONIC ATTACK"),
   ("ELECT", "ELECTRONIC"),
   ("EO", "ELECTRO OPTICAL"),
   ("ES", "ELECTRONIC SUPPORT"),
   ("ESC", "ESCORT"),
   ("EW", "ELECTRONIC WARFARE"),
   ("EWS", "ELECTRONIC WARFARE SUPPORT"),
   ("EXER", "EXERCISE"),
   ("FAC", "FORWARD AIR CONTROLLER"),
   ("FCAP", "FORCE PROTECTION CAP"),
   ("FCF", "FUNCTIONAL CHECK FLIGHT"),
   ("GAAW", "GROUND ALERT ANTIAIR WARFARE"),
   ("GABC", "GROUND ALERT AIRBORNE COMMAND AND CONTROL CENTER"),
   ("GAEW", "GROUND ALERT AIRBORNE EARLY WARNING"),
   ("GAH", "GROUND ALERT ATTACK HELICOPTER"),
   ("GAIR", "GROUND ALERT AEROMEDICAL EVACUATION"),
   ("GAML", "COMBAT AIR PATROL GROUND ALERT TROOP/CARGO HELICOPTER OPERATION"),
   ("GAR", "GROUND ALERT AERIAL REFUELING"),
   ("GASW", "GROUND ALERT ANTISUBMARINE WARFARE"),
   ("GATK", "GROUND ALERT ATTACK"),
   ("GBAI", "GROUND ALERT BATTLEFIELD AIR INTERDICTION"),
   ("GBAR", "GROUND ALERT BARRIER COMBAT AIR PATROL"),
   ("GCAP", "GROUND ALERT COMBAT AIR PATROL"),
   ("GCAS", "GROUND ALERT CLOSE AIR SUPPORT"),
   ("GCOM", "GROUND ALERT COMMUNICATIONS RELAY"),
   ("GDALT", "GROUND ALERT DEFENSIVE COUNTERAIR"),
   ("GESC", "GROUND ALERT ESCORT"),
   ("GEW", "GROUND ALERT ELECTRONIC WARFARE"),
   ("GFAC", "GROUND ALERT FORWARD AIR CONTROLLER"),
   ("GILL", "GROUND ALERT FLARE ILLUMINATION"),
   ("GINT", "GROUND ALERT INTERDICTION"),
   ("GJCP", "GROUND ALERT JOINT AIRBORNE COMMUNICATIONS CONTROL/COMMAND POST"),
   ("GMINL", "GROUND ALERT MINELAYING"),
   ("GMINS", "GROUND ALERT MINE SWEEPING"),
   ("GOAS", "GROUND ALERT OFFENSIVE AIR SUPPORT"),
   ("GOCA", "GROUND ALERT OFFENSIVE COUNTERAIR"),
   ("GREC", "GROUND ALERT RECONNAISSANCE"),
   ("GSA", "GROUND ALERT STRATEGIC ATTACK"),
   ("GSAL", "GROUND ALERT STRATEGIC AIRLIFT"),
   ("GSAR", "GROUND ALERT SEARCH AND RESCUE"),
   ("GSCP", "GROUND ALERT SURFACE COMBAT AIR PATROL"),
   ("GSCR", "GROUND ALERT RECONNAISSANCE STRIKE CONTROL AND RECONNAISSANCE"),
   ("GSEC", "GROUND ALERT SECURITY"),
   ("GSOF", "GROUND ALERT SPECIAL OPERATIONS FORCES"),
   ("GSPT", "GROUND ALERT SUPPORT"),
   ("GSRI", "GROUND ALERT SENSOR IMPLANT"),
   ("GSUP", "GROUND ALERT DEFENSE SUPPRESSION"),
   ("GTAL", "GROUND ALERT THEATER AIRLIFT"),
   ("GTPQ", "GROUND ALERT GROUND CONTROL RADAR BOMBING"),
   ("GWUC", "GROUND ALERT WILD WEASEL"),
   ("HEL", "HELICOPTER MISSION"),
   ("HLO", "TROOP/CARGO HELICOPTER OPERATION"),
   ("HVY", "HEAVY EQUIPMENT AIRDROP"),
   ("ICAP", "INGRESS CAP"),
   ("ILLUM", "FLARE ILLUMINATION"),
   ("IMAGE", "IMAGERY"),
   ("IMINT", "INTELLIGENCE COLLECTION"),
   ("INT", "INTERDICTION"),
   ("JAATT", "JOINT AIRBORNE AIR TRANSPORTABILITY TRAINING"),
   ("JCP", "JOINT AIRBORNE COMMUNICATIONS CENTER/COMMAND POST"),
   ("JSTARS", "JOINT SURVEILLANCE TARGET ATTACK RADAR SYSTEM"),
   ("LAPES", "LOW ALTITUDE PARACHUTE EXTRACTION SYSTEM"),
   ("MEDEV", "MEDICAL EVACUATION"),
   ("MINL", "MINELAYING"),
   ("NSPT", "NO STATEMENT"),
   ("OAS", "OFFENSIVE AIR SUPPORT"),
   ("OBSFL", "OBSERVATION FLIGHT"),
   ("OCA", "OFFENSIVE COUNTERAIR"),
   ("OTR", "OTHER"),
   ("PCAP", "POINT CAP"),
   ("PER", "PERSONNEL AIRDROP"),
   ("PG", "HELICOPTER MISSION (PLANE GUARD)"),
   ("PHOTO", "PHOTO"),
   ("PJCRE", "PARA-RESCUE JUMPER COMBAT RESCUE EXFILTRATION"),
   ("PJCRI", "PARA-RESCUE JUMPER COMBAT RESCUE INFILTRATION"),
   ("PSYCH", "PSYCHOLOGICAL WARFARE"),
   ("RCAS", "REAR AREA CAS"),
   ("RDREC", "ARMED ROAD RECCE"),
   ("REC", "RECONNAISSANCE"),
   ("RES", "RESERVE"),
   ("RSC", "RESCUE"),
   ("RSCAP", "RESCUE COMBAT AIR PATROL"),
   ("RSCPE", "RADAR SCOPE"),
   ("SA", "STRATEGIC ATTACK"),
   ("SAAM", "SPECIAL ASSIGNMENT AIRLIFT MISSION"),
   ("SADP", "STRATEGIC AIRDROP"),
   ("SAL", "STRATEGIC AIRLIFT"),
   ("SAR", "SEARCH AND RESCUE"),
   ("SCR", "RECONNAISSANCE STRIKE CONTROL AND RECONNAISSANCE"),
   ("SEAD", "SUPPRESSION ENEMY AIR DEFENSE"),
   ("SEC", "SECURITY"),
   ("SLAR", "SIDE LOOKING AIRBORNE RADAR"),
   ("SLR", "SIDE LOOKING RADAR"),
   ("SMSN", "SUPPORT MISSION"),
   ("SOF", "SPECIAL OPERATIONS FORCES"),
   ("SOP", "SPECIAL OPERATIONS"),
   ("SRI", "SENSOR IMPLANT"),
   ("SUCAP", "SURFACE COMBAT AIR PATROL"),
   ("SUPT", "SUPPORT"),
   ("SWEP", "AIR TO AIR SWEEP"),
   ("TAC", "TAC SUPPORT"),
   ("TACA", "TACTICAL AIRCRAFT COORDINATOR (AIRBORNE)"),
   ("TADP", "TACTICAL AIRDROP"),
   ("TAL", "THEATER AIRLIFT"),
   ("TALD", "TACTICAL AIRLAND"),
   ("TPQ", "GROUND CONTROL RADAR BOMBING"),
   ("TRNG", "TRAINING"),
   ("TRNSF", "TRANSFER"),
   ("TV", "TELEVISION"),
   ("UTLTY", "UTILITY FLIGHT"),
   ("UW", "UNCONVENTIONAL WARFARE"),
   ("VIPLF", "VERY IMPORTANT PERSON LIFT"),
   ("VIS", "VISUAL"),
   ("WAS", "WAR AT SEA STRIKE"),
   ("WW", "WILD WEASEL"),
   ("WX", "WEATHER"),
   ("WXREC", "WEATHER RECCE"),
   ("XAAW", "AIRBORNE ALERT ANTIAIR WARFARE"),
   ("XABC", "AIRBORNE ALERT AIRBORNE COMMAND AND CONTROL CENTER"),
   ("XAEW", "AIRBORNE ALERT AIRBORNE EARLY WARNING"),
   ("XAH", "AIRBORNE ALERT ATTACK HELICOPTER"),
   ("XAME", "AIRBORNE ALERT AEROMEDICAL EVACUATION"),
   ("XAML", "AIRBORNE ALERT TROOP/CARGO HELICOPTER OPERATION"),
   ("XAR", "AIRBORNE ALERT AERIAL REFUELING"),
   ("XASW", "AIRBORNE ALERT ANTISUBMARINE WARFARE"),
   ("XATK", "AIRBORNE ALERT ATTACK"),
   ("XBAI", "AIRBORNE ALERT BATTLEFIELD AIR INTERDICTION"),
   ("XBAR", "AIRBORNE ALERT BARRIER COMBAT AIR PATROL"),
   ("XCAP", "AIRBORNE ALERT COMBAT AIR PATROL"),
   ("XCAS", "AIRBORNE ALERT CLOSE AIR SUPPORT"),
   ("XCOM", "AIRBORNE ALERT COMMUNICATIONS RELAY"),
   ("XDCA", "AIRBORNE ALERT DEFENSIVE COUNTERAIR"),
   ("XESC", "AIRBORNE ALERT ESCORT"),
   ("XEW", "AIRBORNE ALERT ELECTRONIC WARFARE"),
   ("XFAC", "AIRBORNE ALERT FORWARD AIR CONTROLLER"),
   ("XILL", "AIRBORNE ALERT ILLUMINATION"),
   ("XINT", "AIRBORNE ALERT INTERDICTION"),
   ("XJCP", "AIRBORNE ALERT JOINT COMMUNICATIONS CENTER/COMMAND POST"),
   ("XMINL", "AIRBORNE ALERT MINELAYING"),
   ("XMINS", "AIRBORNE ALERT MINE SWEEPING"),
   ("XOAS", "AIRBORNE ALERT OFFENSIVE AIR SUPPORT"),
   ("XOCA", "AIRBORNE ALERT OFFENSIVE COUNTERAIR"),
   ("XREC", "AIRBORNE ALERT RECONNAISSANCE"),
   ("XSA", "AIRBORNE ALERT STRATEGIC ATTACK"),
   ("XSAR", "AIRBORNE ALERT SEARCH AND RESCUE"),
   ("XSCP", "AIRBORNE ALERT SURFACE COMBAT AIR PATROL"),
   ("XSCR", "AIRBORNE ALERT STRIKE CONTROL AND RECONNAISSANCE"),
   ("XSEC", "AIRBORNE ALERT SECURITY"),
   ("XSOF", "AIRBORNE ALERT SPECIAL OPERATIONS FORCES"),
   ("XSRI", "AIRBORNE ALERT SENSOR IMPLANT"),
   ("XSUP", "AIRBORNE ALERT DEFENSE SUPPRESSION"),
   ("XTPQ", "AIRBORNE ALERT GROUND CONTROL RADAR BOMBING"),
   ("XWW", "AIRBORNE ALERT WILD WEASEL")]

/-- Models `mission_codes = {code for code, _ in MISSION_TYPE_OPTIONS}`. -/
def missionCodes : List String := MISSION_TYPE_OPTIONS.map Prod.fst

/-! Embedding of `datetime.strptime(value, "%d%H%MZ%b%Y")` as used by
`ATO.validate`.  CPython compiles the format to a regular expression
(`%d`: `3[01]|[12]\d|0[1-9]|[1-9]`, `%H`: `2[0-3]|[0-1]\d|\d`,
`%M`: `[0-5]\d|\d`, `%b`: the month abbreviations, `%Y`: four digits, all
case-insensitive), takes the backtracking-first match of the whole string,
and then validates the day against the month and year when constructing
the `datetime` (no re-matching after a semantic failure). -/

def dayClass : List Char → Option Nat
  | [a, b] =>
      if (a = '3' && (b = '0' || b = '1')) || ((a = '1' || a = '2') && b.isDigit)
          || (a = '0' && b.isDigit && b ≠ '0') then some (d2 a b) else none
  | [a] => if a.isDigit && a ≠ '0' then some (digitVal a) else none
  | _ => none

def hourClass : List Char → Option Nat
  | [a, b] =>
      if (a = '2' && b.isDigit && b ≤ '3') || ((a = '0' || a = '1') && b.isDigit) then
        some (d2 a b)
      else none
  | [a] => if a.isDigit then some (digitVal a) else none
  | _ => none

def minuteClass : List Char → Option Nat
  | [a, b] => if a.isDigit && a ≤ '5' && b.isDigit then some (d2 a b) else none
  | [a] => if a.isDigit then some (digitVal a) else none
  | _ => none

/-- Case-insensitive `%b` month abbreviation. -/
def monthFromChars (m1 m2 m3 : Char) : Option Nat :=
  (monthAbbrs.findIdx? (fun x => x = String.mk [m1.toUpper, m2.toUpper, m3.toUpper])).map
    (· + 1)

/-- The literal `Z` (case-insensitive), `%b` and `%Y` tail, end-anchored. -/
def dtgTail : List Char → Option (Nat × Nat)
  | [z, m1, m2, m3, y1, y2, y3, y4] =>
      if z.toUpper = 'Z' && [y1, y2, y3, y4].all Char.isDigit then
        (monthFromChars m1 m2 m3).map fun mo => (mo, d2 y1 y2 * 100 + d2 y3 y4)
      else none
  | _ => none

def tryDtgSplit (dl hl ml : Nat) (cs : List Char) : Option (Nat × Nat × Nat) := do
  let dy ← dayClass (cs.take dl)
  let rest1 := cs.drop dl
  let _hh ← hourClass (rest1.take hl)
  let rest2 := rest1.drop hl
  let _mi ← minuteClass (rest2.take ml)
  let p ← dtgTail (rest2.drop ml)
  some (dy, p.1, p.2)

/-- Field-width combinations in regex backtracking order (two-digit
alternatives are listed first in each class, rightmost varies fastest). -/
def dtgSplits : List (Nat × Nat × Nat) :=
  [(2, 2, 2), (2, 2, 1), (2, 1, 2), (2, 1, 1),
   (1, 2, 2), (1, 2, 1), (1, 1, 2), (1, 1, 1)]

def dtgRegexFirst (cs : List Char) : Option (Nat × Nat × Nat) :=
  (dtgSplits.map fun t => tryDtgSplit t.1 t.2.1 t.2.2 cs).foldl (fun acc o => acc <|> o) none

/-- Success of `datetime.strptime(s, "%d%H%MZ%b%Y")`. -/
def parseDtg14 (s : String) : Bool :=
  match dtgRegexFirst s.data with
  | some (dy, mo, y) => decide (1 ≤ y) && decide (dy ≤ daysInMonth mo y)
  | none => false

/-- Models `_validate_short_dtg`; `year` is the ambient
`datetime.utcnow().year` made explicit. -/
def validateShortDtg (year : Nat) (value : String) : Bool :=
  if value = "" then false
  else parseDtg14 (pyUpper (pyStrip value) ++ Nat.repr year)

/-! Validation messages of `ATO.validate`, decomposed as the f-strings of
the source (index and label slots made explicit). -/

def nameRequiredMsg : String := "El nombre del ATO es obligatorio."

def operRequiredMsg : String := "El campo OPER es obligatorio en el header."

def msgidFormatRequiredMsg : String :=
  "El campo MSGID - Text Format Identifier es obligatorio."

def msgidOriginatorRequiredMsg : String := "El campo MSGID - Originator es obligatorio."

def msgidSerialRequiredMsg : String := "El campo MSGID - Message Serial es obligatorio."

def msgidMonthMsg : String :=
  "El campo MSGID - Month debe seleccionarse de la lista proporcionada."

def aknldgMsg : String := "El campo AKNLDG debe ser \x27YES\x27 o \x27NO\x27."

def dtgFormatMsg (label : String) : String :=
  "La fecha \x27" ++ label ++ "\x27 debe estar en formato DDHHmmZMMMYYYY (ej. 060600ZMAR2002)."

def dtgRequiredMsg (label : String) : String :=
  "La fecha \x27" ++ label ++ "\x27 es obligatoria."

def allotHead (idx : Nat) : String := "El Allotment #" ++ Nat.repr idx

def allotUnitMsg (idx : Nat) : String := allotHead idx ++ " requiere UNIT."

def allotIcaoRequiredMsg (idx : Nat) : String := allotHead idx ++ " requiere ICAO."

def allotIcaoUpperMsg (idx : Nat) : String :=
  "El ICAO del Allotment #" ++ Nat.repr idx ++ " debe estar en mayúsculas."

def allotCountRequiredMsg (idx : Nat) : String :=
  allotHead idx ++ " requiere la cantidad de activos."

def allotCountNumericMsg (idx : Nat) : String :=
  "El campo COUNT OF ASSETS del Allotment #" ++ Nat.repr idx ++ " debe ser numérico."

def allotActypMsg (idx : Nat) : String := allotHead idx ++ " requiere ACTYP."

def tuIdxHead (idx : Nat) : String := "La Task Unit #" ++ Nat.repr idx

def tuMissingRefMsg (idx : Nat) : String :=
  tuIdxHead idx ++ " debe vincularse a un recurso definido en Allotment."

def tuUnresolvedRefMsg (idx : Nat) : String :=
  tuIdxHead idx ++ " referencia un Allotment inexistente. Actualiza la selección."

def tuMissionNumberMsg (idx : Nat) : String :=
  tuIdxHead idx ++ " requiere un Mission Number en AMSNDAT."

def tuPrimaryRequiredMsg (idx : Nat) : String :=
  tuIdxHead idx ++ " requiere un Primary Mission Type."

def tuPrimaryInvalidMsg (idx : Nat) : String :=
  "El Primary Mission Type de la Task Unit #" ++ Nat.repr idx ++
    " no es válido. Selecciona una opción de la lista."

def tuSecondaryInvalidMsg (idx : Nat) : String :=
  "El Secondary Mission Type de la Task Unit #" ++ Nat.repr idx ++
    " no es válido. Selecciona una opción de la lista."

def tuLocRequiredMsg (idx : Nat) (label : String) : String :=
  tuIdxHead idx ++ " requiere un " ++ label ++ " en AMSNDAT."

def tuLocUpperMsg (idx : Nat) (label : String) : String :=
  "El campo " ++ label ++ " de la Task Unit #" ++ Nat.repr idx ++
    " debe estar en mayúsculas."

def tuNumAircraftMsg (idx : Nat) : String :=
  tuIdxHead idx ++ " debe indicar NUMBER OF AIRCRAFT en MSNACFT."

def tuNumAircraftNumericMsg (idx : Nat) : String :=
  "El campo NUMBER OF AIRCRAFT de la Task Unit #" ++ Nat.repr idx ++
    " debe ser numérico."

def tuCallSignMsg (idx : Nat) : String :=
  tuIdxHead idx ++ " debe incluir un AIRCRAFT CALL SIGN en MSNACFT."

def tuIffMsg (idx : Nat) (label : String) : String :=
  "El campo IFF/SIF " ++ label ++ " de la Task Unit #" ++ Nat.repr idx ++
    " debe ser numérico."

def tuDesignatorMsg (idx : Nat) : String :=
  tuIdxHead idx ++ " debe seleccionar PRIMARY/ALTERNATE DESIGNATOR (P o S)."

def tuShortDtgRequiredMsg (idx : Nat) (label : String) : String :=
  tuIdxHead idx ++ " requiere un valor para " ++ label ++ " en GTGTLOC."

def tuShortDtgFormatMsg (idx : Nat) (label : String) : String :=
  "El campo " ++ label ++ " de GTGTLOC en la Task Unit #" ++ Nat.repr idx ++
    " debe tener formato DDHHmmZMMM."

def tuControlAgencyMsg (idx : Nat) : String :=
  tuIdxHead idx ++ " debe seleccionar CRC o AEW en CONTROLA."

def tuControlCallSignMsg (idx : Nat) : String :=
  tuIdxHead idx ++ " debe definir CALL SIGN en CONTROLA."

/-- The month-code set literal of `ATO.validate`. -/
def validateMonthSet : List String :=
  ["JAN", "FEB", "MAR", "APR", "MAY", "JUN",
   "JUL", "AUG", "SEP", "OCT", "NOV", "DEC"]

/-- Header timeframe check (the `for label, value in ...` loop body). -/
def headerDtgErrors (label : String) (value : String) : List String :=
  if value ≠ "" then
    if ¬ parseDtg14 value then [dtgFormatMsg label] else []
  else [dtgRequiredMsg label]

/-- The allotment-loop body of `ATO.validate` (1-based index). -/
def allotmentErrors (idx : Nat) (al : Allotment) : List String :=
  (if pyStrip al.unit_designator = "" then [allotUnitMsg idx] else []) ++
  (if pyStrip al.icao_base_code = "" then [allotIcaoRequiredMsg idx]
   else if al.icao_base_code ≠ pyUpper al.icao_base_code then [allotIcaoUpperMsg idx]
   else []) ++
  (if pyStrip al.asset_count = "" then [allotCountRequiredMsg idx]
   else if ¬ pyIsDigitStr al.asset_count then [allotCountNumericMsg idx] else []) ++
  (if pyStrip al.aircraft_type_model = "" then [allotActypMsg idx] else [])

/-- DEPLOC/ARRLOC check (required then upper-case). -/
def tuLocErrors (idx : Nat) (label value : String) : List String :=
  if pyStrip value = "" then [tuLocRequiredMsg idx label]
  else if value ≠ pyUpper value then [tuLocUpperMsg idx label]
  else []

/-- IFF/SIF mode check (numeric when present). -/
def tuIffErrors (idx : Nat) (label value : String) : List String :=
  if value ≠ "" ∧ ¬ pyIsDigitStr value then [tuIffMsg idx label] else []

/-- NET/NLT check (required then short-DTG format). -/
def tuShortDtgErrors (year idx : Nat) (label value : String) : List String :=
  if pyStrip value = "" then [tuShortDtgRequiredMsg idx label]
  else if ¬ validateShortDtg year value then [tuShortDtgFormatMsg idx label]
  else []

/-- The task-unit-loop body of `ATO.validate` (1-based index);
`allotmentIds` are the keys of `allotment_lookup`. -/
def taskUnitErrors (year : Nat) (allotmentIds : List String) (idx : Nat)
    (tu : TaskUnit) : List String :=
  (if pyStrip tu.allotment_id = "" then [tuMissingRefMsg idx]
   else if ¬ allotmentIds.contains tu.allotment_id then [tuUnresolvedRefMsg idx]
   else []) ++
  (if pyStrip tu.amsndat.mission_number = "" then [tuMissionNumberMsg idx] else []) ++
  (if pyStrip tu.amsndat.primary_mission_type = "" then [tuPrimaryRequiredMsg idx]
   else if ¬ missionCodes.contains (pyUpper tu.amsndat.primary_mission_type) then
     [tuPrimaryInvalidMsg idx]
   else []) ++
  (if tu.amsndat.secondary_mission_type ≠ "" ∧
      ¬ missionCodes.contains (pyUpper tu.amsndat.secondary_mission_type) then
     [tuSecondaryInvalidMsg idx]
   else []) ++
  tuLocErrors idx "DEPLOC" tu.amsndat.icao_departure_location ++
  tuLocErrors idx "ARRLOC" tu.amsndat.icao_recovery_base ++
  (if pyStrip tu.msnacft.number_of_aircraft = "" then [tuNumAircraftMsg idx]
   else if ¬ pyIsDigitStr tu.msnacft.number_of_aircraft then
     [tuNumAircraftNumericMsg idx]
   else []) ++
  (if pyStrip tu.msnacft.aircraft_call_sign = "" then [tuCallSignMsg idx] else []) ++
  tuIffErrors idx "MODE 1" tu.msnacft.iff_mode1 ++
  tuIffErrors idx "MODE 2" tu.msnacft.iff_mode2 ++
  tuIffErrors idx "MODE 3" tu.msnacft.iff_mode3 ++
  (if ¬ ["P", "S"].contains (pyUpper tu.gtgtloc.designator) then
     [tuDesignatorMsg idx]
   else []) ++
  tuShortDtgErrors year idx "NET" tu.gtgtloc.not_earlier_than ++
  tuShortDtgErrors year idx "NLT" tu.gtgtloc.not_later_than ++
  (if ¬ ["CRC", "AEW"].contains (pyUpper tu.controla.agency_type) then
     [tuControlAgencyMsg idx]
   else []) ++
  (if pyStrip tu.controla.call_sign = "" then [tuControlCallSignMsg idx] else [])

/-- Concatenates the loop bodies with `enumerate(xs, start)`. -/
def enumConcat {α : Type} (start : Nat) (xs : List α) (f : Nat → α → List String) :
    List String :=
  match xs with
  | [] => []
  | x :: rest => f start x ++ enumConcat (start + 1) rest f

/-- `ATO.validate`; `year` is the ambient `datetime.utcnow().year` made
explicit. -/
def ATO.validate (a : ATO) (year : Nat) : List String :=
  (if pyStrip a.name = "" then [nameRequiredMsg] else []) ++
  (if pyStrip a.header.operation_identification_data = "" then [operRequiredMsg] else []) ++
  (if pyStrip a.header.msg_text_format_identifier = "" then [msgidFormatRequiredMsg] else []) ++
  (if pyStrip a.header.msg_originator = "" then [msgidOriginatorRequiredMsg] else []) ++
  (if pyStrip a.header.msg_serial = "" then [msgidSerialRequiredMsg] else []) ++
  (if ¬ validateMonthSet.contains (pyUpper a.header.msg_month) then [msgidMonthMsg] else []) ++
  (if ¬ ["YES", "NO"].contains (pyUpper a.header.acknowledgement_required) then
     [aknldgMsg]
   else []) ++
  headerDtgErrors "TIMEFRAM - FROM" a.header.timeframe_from ++
  headerDtgErrors "TIMEFRAM - TO" a.header.timeframe_to ++
  enumConcat 1 a.allotments allotmentErrors ++
  enumConcat 1 a.task_units (taskUnitErrors year (a.allotments.map fun al => al.id))

/-! Embedding of `src/app/exporter.py`. -/

/-- `x or "NA"`. -/
def orNA (s : String) : String := pyOrStr s "NA"

/-- `x or "-"`. -/
def dashOr (s : String) : String := pyOrStr s "-"

/-- `x or "N/A"` (DECL placeholders). -/
def orSlashNA (s : String) : String := pyOrStr s "N/A"

def Allotment.formatted_fragment (al : Allotment) : String :=
  "UNIT:" ++ orNA al.unit_designator ++ "/ICAO:" ++ pyUpper (orNA al.icao_base_code) ++
    "/" ++ orNA al.asset_count ++ "/ACTYP:" ++ orNA al.aircraft_type_model

/-- The `MSGID` line: defaulted parts, empties filtered, slash-joined. -/
def msgidLine (h : Header) : String :=
  let msgidParts :=
    [pyOrStr h.msg_text_format_identifier "ATO",
     pyOrStr h.msg_originator "UNKNOWN",
     pyOrStr h.msg_serial "000",
     pyUpper (pyOrStr h.msg_month "JAN"),
     pyOrStr h.msg_qualifier ""]
  "MSGID/" ++ pyJoin "/" (msgidParts.filter fun p => p ≠ "") ++ "//"

/-- The five header lines of `export_ato_to_text`. -/
def headerLines (a : ATO) : List String :=
  ["OPER/" ++ pyOrStr a.header.operation_identification_data a.name ++ "//",
   msgidLine a.header,
   "AKNLDG/" ++ pyUpper (pyOrStr a.header.acknowledgement_required "NO") ++ "//",
   "TIMEFRAM/FROM:" ++ orNA a.header.timeframe_from ++ "/TO:" ++
     orNA a.header.timeframe_to ++ "//",
   "HEADING/" ++ pyUpper (pyOrStr a.header.heading "TASKING") ++ "//"]

/-- `allotment_lookup.get(unit.allotment_id)`: the dictionary keeps the
last entry per id. -/
def lookupAllotment (als : List Allotment) (aid : String) : Option Allotment :=
  als.foldl (fun acc al => if al.id = aid then some al else acc) none

/-- `_iff_fragment`. -/
def iffFragment (pre value : String) : String :=
  if value ≠ "" then pre ++ value else "-"

/-- The per-task-unit block of `export_ato_to_text`. -/
def taskUnitLines (als : List Allotment) (u : TaskUnit) : List String :=
  let sel := lookupAllotment als u.allotment_id
  let unitName :=
    match sel with
    | some al => orNA al.unit_designator
    | none => orNA u.unit_name
  let icao :=
    match sel with
    | some al => pyUpper (orNA al.icao_base_code)
    | none => "NA"
  let aircraftType :=
    match sel with
    | some al => orNA al.aircraft_type_model
    | none => orNA u.aircraft_type
  let assetCount :=
    match sel with
    | some al => orNA al.asset_count
    | none => "NA"
  let amsndatParts :=
    [dashOr u.amsndat.mission_number, dashOr u.amsndat.amc_mission_number,
     dashOr u.amsndat.package_identification, dashOr u.amsndat.mission_commander,
     dashOr u.amsndat.primary_mission_type, dashOr u.amsndat.secondary_mission_type,
     dashOr u.amsndat.alert_status,
     "DEPLOC:" ++ pyUpper (dashOr u.amsndat.icao_departure_location),
     "ARRLOC:" ++ pyUpper (dashOr u.amsndat.icao_recovery_base)]
  let aircraftCountFragment :=
    if u.msnacft.number_of_aircraft = "" then pyOrStr assetCount "-"
    else u.msnacft.number_of_aircraft
  let msnacftParts :=
    [dashOr aircraftCountFragment, "ACTYP:" ++ orNA aircraftType,
     dashOr u.msnacft.aircraft_call_sign, dashOr u.msnacft.primary_configuration_code,
     dashOr u.msnacft.secondary_configuration_code,
     iffFragment "1" u.msnacft.iff_mode1, iffFragment "2" u.msnacft.iff_mode2,
     iffFragment "3" u.msnacft.iff_mode3]
  let gtgtlocParts :=
    [dashOr u.gtgtloc.designator, dashOr u.gtgtloc.day_time_month_tasked,
     "NET:" ++ pyUpper (dashOr u.gtgtloc.not_earlier_than),
     "NLT:" ++ pyUpper (dashOr u.gtgtloc.not_later_than),
     dashOr u.gtgtloc.target_facility_name, "ID:" ++ dashOr u.gtgtloc.target_identifier,
     dashOr u.gtgtloc.target_type, dashOr u.gtgtloc.dmpi_description,
     "DMPID:" ++ dashOr u.gtgtloc.dmpi_lat_long, dashOr u.gtgtloc.geodetic_datum,
     dashOr u.gtgtloc.dmpi_elevation, dashOr u.gtgtloc.component_target_identifier]
  let controlaParts :=
    [dashOr u.controla.agency_type, dashOr u.controla.call_sign,
     "PFREQ:" ++ dashOr u.controla.primary_frequency,
     "SFREQ:" ++ dashOr u.controla.secondary_frequency,
     "NAME:" ++ dashOr u.controla.report_in_point]
  ["TASKUNIT/" ++ unitName ++ "/ICAO:" ++ icao ++ "//",
   "AMSNDAT/" ++ pyJoin "/" amsndatParts ++ "//",
   "MSNACFT/" ++ pyJoin "/" msnacftParts ++ "//",
   "GTGTLOC/" ++ pyJoin "/" gtgtlocParts ++ "//",
   "CONTROLA/" ++ pyJoin "/" controlaParts ++ "//"] ++
  (if u.amplification ≠ "" then ["AMPN/" ++ u.amplification ++ "//"] else []) ++
  (if u.narrative ≠ "" then ["NARR/" ++ u.narrative ++ "//"] else [])

def supportLine (s : SupportControlEntry) : String :=
  "CONTROLA/" ++
    pyJoin ";" [orNA s.role, orNA s.unit, "FREQ:" ++ orNA s.frequency,
                "POC:" ++ orNA s.contact, "NOTES:" ++ orNA s.notes] ++ "//"

def spinLine (s : SpinInstruction) : String :=
  "NARR/" ++ pyOrStr s.title "SPIN" ++ ":" ++ orNA s.content ++ "//"

def declLine (f : Footer) : String :=
  "DECL/" ++
    pyJoin ";" ["AUTH:" ++ orSlashNA f.authority, "PREP:" ++ orSlashNA f.prepared_by,
                "REL:" ++ orSlashNA f.release_instructions] ++ "//"

/-- The list of lines appended by `export_ato_to_text`. -/
def exportLines (a : ATO) : List String :=
  headerLines a ++
  (if a.allotments.isEmpty then []
   else "//RESOURCES" :: a.allotments.map fun al => "RESASSET/" ++ al.formatted_fragment ++ "//") ++
  (if a.task_units.isEmpty then []
   else "//TASKUNITS" :: (a.task_units.map (taskUnitLines a.allotments)).flatten) ++
  (if a.support_control.isEmpty then []
   else "//SUPPORT" :: a.support_control.map supportLine) ++
  (if a.spins.isEmpty then [] else "//SPINS" :: a.spins.map spinLine) ++
  [declLine a.footer]

def export_ato_to_text (a : ATO) : String :=
  pyJoin "\n" (exportLines a)

/-! Verification-side definitions: the well-formedness domain on which the
migration loader is total, a definition following the spec wording of the
`MSGID` contract (for comparison with the code), and concrete instances
used by the theorems. -/

/-- Keys read, if present, must be bound to strings. -/
def strOnly (es : List (String × Val)) (keys : List String) : Bool :=
  keys.all fun k =>
    match assoc es k with
    | none => true
    | some (vstr _) => true
    | some _ => false

/-- The keys `Header.from_dict` reads. -/
def headerReadKeys : List String :=
  ["operation_identification_data", "operation_name", "msg_text_format_identifier",
   "title", "msg_originator", "originating_unit", "msg_serial", "msg_month",
   "msg_qualifier", "acknowledgement_required", "timeframe_from",
   "effective_time_utc", "timeframe_to", "expiry_time_utc", "heading"]

/-- The keys `Allotment.from_dict` reads. -/
def allotReadKeys : List String :=
  ["id", "unit_designator", "resource_name", "icao_base_code", "icao",
   "asset_count", "count_of_assets", "quantity", "aircraft_type_model",
   "aircraft_type", "mission"]

/-- The string-valued keys `TaskUnit.from_dict` reads at the top level. -/
def tuStrKeys : List String :=
  ["allotment_id", "resource_id", "mission_type", "callsign", "remarks",
   "target", "control_agency", "tail_numbers", "iff_code", "takeoff_time_utc",
   "amplification", "ampn", "narrative", "unit_name", "aircraft_type"]

/-- A header mapping the loader accepts: falsy, or a dictionary whose read
keys are bound to strings (unknown keys are ignored by the loader). -/
def wfHeaderVal (v : Val) : Bool :=
  if truthy v then
    match v with
    | vdict es => strOnly es headerReadKeys
    | _ => false
  else true

/-- An allotment mapping the loader accepts. -/
def wfAllotVal (v : Val) : Bool :=
  if truthy v then
    match v with
    | vdict es => strOnly es allotReadKeys
    | _ => false
  else true

/-- A nested-segment value the loader accepts: falsy (replaced by `{}`),
or a dictionary with only declared field names bound to strings (the
`cls(**data)` constraint). -/
def wfSegmentVal (allowed : List String) (v : Val) : Bool :=
  if truthy v then
    match v with
    | vdict es => wfFlat allowed es
    | _ => false
  else true

/-- A task-unit mapping the loader accepts. -/
def wfTaskUnitVal (v : Val) : Bool :=
  if truthy v then
    match v with
    | vdict es =>
        wfSegmentVal amsndatKeys (pyGet es "amsndat") &&
        wfSegmentVal msnacftKeys (pyGet es "msnacft") &&
        wfSegmentVal gtgtlocKeys (pyGet es "gtgtloc") &&
        wfSegmentVal controlaKeys (pyGet es "controla") &&
        strOnly es tuStrKeys
    | _ => false
  else true

/-- A flat-entity mapping for the guard-less `cls(**data)` loaders
(support entries, spins, footer): it must be a dictionary with only
declared field names. -/
def wfFlatVal (allowed : List String) (v : Val) : Bool :=
  match v with
  | vdict es => wfFlat allowed es
  | _ => false

/-- An optional list-valued entry of the root mapping. -/
def wfListVal (p : Val → Bool) (o : Option Val) : Bool :=
  match o with
  | none => true
  | some (vlist items) => items.all p
  | some _ => false

/-- The domain on which `ATO.from_dict` is total: the root binds `"id"` to
a string, the optional `"name"` is a string, the nested entities satisfy
their loaders' constraints, and string leaves are strings.  Unknown keys
are unconstrained at the root, header, allotment and task-unit levels, and
rejected inside the flat entities (where `cls(**data)` raises). -/
def wfATOVal (v : Val) : Bool :=
  match v with
  | vdict es =>
      (match assoc es "id" with
       | some (vstr _) => true
       | _ => false) &&
      strOnly es ["name"] &&
      wfHeaderVal (pyGetD es "header" (vdict [])) &&
      wfListVal wfAllotVal (assoc es "allotments") &&
      wfListVal wfTaskUnitVal (assoc es "task_units") &&
      wfListVal (wfFlatVal supportKeys) (assoc es "support_control") &&
      wfListVal (wfFlatVal spinKeys) (assoc es "spins") &&
      wfFlatVal footerKeys (pyGetD es "footer" (vdict []))
  | _ => false

/-- Modelled from the spec: the `MSGID` line as §4.3 words it — the
slash-joined non-empty members of {message-type id, originator, serial,
upper-cased month, qualifier}, with no substitute values.  Used only to
compare the spec wording with the code's `msgidLine`. -/
def specMsgidLine (h : Header) : String :=
  "MSGID/" ++
    pyJoin "/"
      (([h.msg_text_format_identifier, h.msg_originator, h.msg_serial,
         pyUpper h.msg_month, h.msg_qualifier]).filter fun p => p ≠ "") ++ "//"

/-- Key `k`, if present in `es`, is bound to a string (the shape every
read key has inside the loader totality domain). -/
def strAt (es : List (String × Val)) (k : String) : Prop :=
  assoc es k = none ∨ ∃ s, assoc es k = some (vstr s)

/-- A constant fresh-identity source for concrete evaluations. -/
def fresh0 : Nat → String := fun _ => "FRESH"

/-- Root mapping with an `"id"` but an unknown key inside a support entry:
`SupportControlEntry.from_dict` raises `TypeError` on it. -/
def c1BadInput : Val :=
  vdict [("id", vstr "A"),
         ("support_control", vlist [vdict [("bogus", vstr "x")]])]

/-- A well-formed mapping with unknown keys at tolerant levels and a
legacy-shaped task unit. -/
def c1WfInput : Val :=
  vdict [("id", vstr "D1"), ("mystery", vlist []),
         ("header", vdict [("operation_name", vstr "OP")]),
         ("task_units", vlist [vdict [("callsign", vstr "V")]])]

/-- An ATO whose header month is stored lower-case. -/
def c2BadAto : ATO := { id := "R1", name := "N", header := { msg_month := "jan" } }

/-- The same ATO after the loader's normalization. -/
def c2BadAtoNormalized : ATO :=
  { id := "R1", name := "N", header := { msg_month := "JAN" } }

/-- A populated canonical ATO (upper-case ICAO, trimmed counts). -/
def c2GoodAto : ATO :=
  { id := "R1", name := "N",
    header := { msg_month := "JAN", acknowledgement_required := "NO",
                timeframe_from := "060600ZMAR2002" },
    allotments := [{ id := "AL1", unit_designator := "U", icao_base_code := "ABCD",
                     asset_count := "4", aircraft_type_model := "F16" }],
    task_units := [{ allotment_id := "AL1", amplification := "amp" }],
    support_control := [{ role := "r" }], spins := [{ title := "t" }],
    footer := { authority := "auth" } }

/-- An ATO with one task unit whose amplification and narrative are blank. -/
def c3Ato : ATO := { id := "X", name := "OP", task_units := [{ allotment_id := "A1" }] }

/-- The export literal example of the spec (§8). -/
def c4Ato : ATO :=
  { id := "X", name := "OP1",
    header := { operation_identification_data := "OP1", msg_originator := "AOC",
                msg_serial := "001" } }

/-- A task unit with a dangling allotment reference and legacy fallback
fields. -/
def c5Unit : TaskUnit :=
  { allotment_id := "ZZZ", unit_name := "LEGACY", aircraft_type := "F18" }

def c5Ato : ATO := { id := "X", name := "N", task_units := [c5Unit] }

/-- A task-unit mapping carrying only the legacy `"remarks"` key. -/
def c6RemInput : List (String × Val) := [("remarks", vstr "x")]

/-- A task-unit mapping with no legacy keys. -/
def c6CleanInput : List (String × Val) :=
  [("allotment_id", vstr "A"), ("unit_name", vstr "U")]

/-- An ATO whose NET value parses only in leap years. -/
def c6Ato : ATO :=
  { id := "X", name := "OP",
    task_units := [{ gtgtloc := { not_earlier_than := "290000ZFEB" } }] }

/-- An allotment mapping without an `"id"` key. -/
def c6NoIdAllot : Val := vdict [("unit_designator", vstr "U")]

/-- A task-unit record in the oldest flat legacy shape. -/
def c7Input : List (String × Val) :=
  [("mission_type", vstr "CAS"), ("callsign", vstr "VIPER"),
   ("target", vstr "BRIDGE")]

/-- An allotment mapping where the current key is present but empty and a
legacy alias is populated. -/
def c9BadInput : List (String × Val) :=
  [("id", vstr "A1"), ("unit_designator", vstr ""),
   ("resource_name", vstr "LEG")]

/-- A header mapping where the current key is present but empty and the
legacy alias is populated. -/
def c9HdrInput : List (String × Val) :=
  [("operation_identification_data", vstr ""), ("operation_name", vstr "OLD")]

/-- A task-unit mapping whose current-schema leaf is present but empty
next to the corresponding legacy key. -/
def c9TuInput : List (String × Val) :=
  [("mission_type", vstr "CAS"),
   ("amsndat", vdict [("primary_mission_type", vstr "")])]

/-- An allotment mapping where current and legacy keys are both populated. -/
def c9Cur2Input : List (String × Val) :=
  [("id", vstr "A1"), ("unit_designator", vstr "CUR"),
   ("resource_name", vstr "LEG")]

/-- An ATO with a blank header operation identifier. -/
def c10Ato : ATO :=
  { id := "X", name := "MIRROR", header := { operation_identification_data := "" } }

/-- A header with a blank originator (and blank qualifier). -/
def c8Header : Header := { msg_serial := "001" }

/-- Character prefixes of the `AMPN`/`NARR` segment keywords. -/
def ampnPrefixChars : List Char := ['A', 'M', 'P', 'N', '/']

def narrPrefixChars : List Char := ['N', 'A', 'R', 'R', '/']

/-- A task unit with populated amplification and narrative. -/
def c3UnitFilled : TaskUnit := { amplification := "AMP TEXT", narrative := "NARR TEXT" }

/-- A task unit with blank amplification and narrative. -/
def c3UnitBlank : TaskUnit := { allotment_id := "A1" }

/-- Reads a decimal digit string left to right, extending an accumulator;
used to show that `Nat.repr` is injective. -/
def evalDigitsFrom (acc : Nat) : List Char → Nat
  | [] => acc
  | c :: cs => evalDigitsFrom (acc * 10 + digitVal c) cs

/-! General-purpose lemmas shared by the claim proofs. -/

theorem strData_append (a b : String) : (a ++ b).data = a.data ++ b.data := rfl

theorem str_ne_of_take (n : Nat) {a b : String}
    (h : a.data.take n ≠ b.data.take n) : a ≠ b :=
  fun e => h (by rw [e])

theorem str_append_right_ne (a : String) {b c : String} (h : b ≠ c) :
    a ++ b ≠ a ++ c := by
  intro e
  apply h
  have e' := congrArg String.data e
  rw [strData_append, strData_append] at e'
  exact String.ext (List.append_cancel_left e')

theorem str_append_right_cancel {a b c : String} (e : a ++ b = a ++ c) : b = c := by
  have e' := congrArg String.data e
  rw [strData_append, strData_append] at e'
  exact String.ext (List.append_cancel_left e')

theorem count_if_ne {c : Prop} [Decidable c] {m m' : String} (h : m' ≠ m) :
    (if c then [m'] else []).count m = 0 := by
  split <;> simp [List.count_cons, h]

theorem count_if_self {c : Prop} [Decidable c] {m : String} :
    (if c then [m] else []).count m = if c then 1 else 0 := by
  split <;> simp

theorem pyOrStr_ne_empty {s d : String} (hd : d ≠ "") : pyOrStr s d ≠ "" := by
  unfold pyOrStr
  split <;> simp_all

theorem pyOrStr_empty_default (s : String) : pyOrStr s "" = s := by
  unfold pyOrStr
  split <;> simp_all

theorem assoc_nil (k : String) : assoc [] k = none := rfl

theorem assoc_ne_nil {es : List (String × Val)} {k : String} {v : Val}
    (h : assoc es k = some v) : es ≠ [] := by
  intro e
  rw [e] at h
  exact Option.noConfusion h

theorem assoc_append_single {es : List (String × Val)} {k k' : String} {v : Val}
    (hne : k' ≠ k) : assoc (es ++ [(k', v)]) k = assoc es k := by
  induction es with
  | nil => simp [assoc, hne]
  | cons p rest ih =>
      simp only [List.cons_append, assoc]
      split <;> simp [ih]

theorem truthy_vdict_of_ne {es : List (String × Val)} (h : es ≠ []) :
    truthy (vdict es) = true := by
  cases es with
  | nil => exact absurd rfl h
  | cons p rest => rfl

theorem truthy_vdict_false {es : List (String × Val)}
    (h : truthy (vdict es) = false) : es = [] := by
  cases es with
  | nil => rfl
  | cons p rest => exact Bool.noConfusion h

theorem pyOr_dict_empty (ad : List (String × Val)) :
    pyOr (vdict ad) (vdict []) = vdict ad := by
  cases ad with
  | nil => rfl
  | cons p rest => rfl

theorem truthy_pyGet_some {es : List (String × Val)} {k : String}
    (h : truthy (pyGet es k) = true) : assoc es k = some (pyGet es k) := by
  unfold pyGet at *
  cases he : assoc es k with
  | none => rw [he] at h; exact Bool.noConfusion h
  | some v => simp [he]

theorem setdefault_of_present {es : List (String × Val)} {k : String} (v : Val)
    (h : hasKey es k = true) : setdefault es k v = es := by
  unfold setdefault
  simp [h]

theorem assoc_setdefault_ne {es : List (String × Val)} {k k' : String} {v : Val}
    (hne : k' ≠ k) : assoc (setdefault es k' v) k = assoc es k := by
  unfold setdefault
  split
  · rfl
  · exact assoc_append_single hne

theorem hasKey_of_assoc {es : List (String × Val)} {k : String} {v : Val}
    (h : assoc es k = some v) : hasKey es k = true := by
  unfold hasKey
  simp [h]

theorem assoc_append_self {es : List (String × Val)} (k : String) (v : Val)
    (h : assoc es k = none) : assoc (es ++ [(k, v)]) k = some v := by
  induction es with
  | nil => simp [assoc]
  | cons p rest ih =>
      obtain ⟨k', v'⟩ := p
      simp only [assoc, List.cons_append] at h ⊢
      split at h
      · exact Option.noConfusion h
      · rename_i hne
        rw [if_neg hne]
        exact ih h

theorem assoc_setdefault_absent {es : List (String × Val)} {k : String} {v : Val}
    (h : assoc es k = none) : assoc (setdefault es k v) k = some v := by
  unfold setdefault hasKey
  rw [h]
  simp only [Option.isSome_none, Bool.false_eq_true, if_false]
  exact assoc_append_self k v h

theorem setEntry_self {es : List (String × Val)} {k : String} {v : Val}
    (h : assoc es k = some v) : setEntry es k v = es := by
  induction es with
  | nil => rfl
  | cons p rest ih =>
      cases p with
      | mk k' v' =>
          simp only [assoc] at h
          simp only [setEntry]
          split
          · rename_i heq
            rw [if_pos heq] at h
            cases h
            rfl
          · rename_i heq
            rw [if_neg heq] at h
            rw [ih h]

/-- Writing back an unmodified aliased segment leaves the mapping as it
was: when the segment entry is truthy, the dictionary written back is the
very one read out, and when it is falsy the alias write-back is skipped. -/
theorem updAlias_self {es : List (String × Val)} {k : String}
    {ad : List (String × Val)}
    (had : asDict (pyOr (pyGet es k) (vdict [])) = some ad) :
    updAlias es k (pyGet es k) (vdict ad) = es := by
  by_cases ht : truthy (pyGet es k) = true
  · rw [updAlias, if_pos ht]
    have hk := truthy_pyGet_some ht
    rw [pyOr, if_pos ht] at had
    cases hg : pyGet es k with
    | vdict entries =>
        rw [hg] at had hk
        rw [show asDict (vdict entries) = some entries from rfl,
          Option.some.injEq] at had
        subst had
        exact setEntry_self hk
    | vstr s => rw [hg] at had; exact Option.noConfusion had
    | vnull => rw [hg] at had; exact Option.noConfusion had
    | vlist l => rw [hg] at had; exact Option.noConfusion had
  · rw [updAlias, if_neg ht]

theorem wfFlat_assoc_none {allowed : List String} {es : List (String × Val)}
    {k : String} (hwf : wfFlat allowed es = true) (hk : allowed.contains k = false) :
    assoc es k = none := by
  induction es with
  | nil => rfl
  | cons p rest ih =>
      simp only [wfFlat, List.all_cons, Bool.and_eq_true] at hwf
      simp only [assoc]
      split
      · rename_i heq
        rw [heq] at hwf
        rw [hwf.1.1] at hk
        exact Bool.noConfusion hk
      · exact ih hwf.2

theorem wfFlat_assoc_str {allowed : List String} {es : List (String × Val)}
    {k : String} {v : Val} (hwf : wfFlat allowed es = true)
    (h : assoc es k = some v) : ∃ s, v = vstr s := by
  induction es with
  | nil => exact Option.noConfusion h
  | cons p rest ih =>
      obtain ⟨k', v'⟩ := p
      simp only [wfFlat, List.all_cons, Bool.and_eq_true] at hwf
      simp only [assoc] at h
      split at h
      · cases h
        cases v with
        | vstr s => exact ⟨s, rfl⟩
        | vnull => exact absurd hwf.1.2 (by simp [asStr])
        | vlist l => exact absurd hwf.1.2 (by simp [asStr])
        | vdict d => exact absurd hwf.1.2 (by simp [asStr])
      · exact ih hwf.2 h

theorem wfFlat_append {allowed : List String} {es : List (String × Val)}
    {k : String} {s : String} (hwf : wfFlat allowed es = true)
    (hk : allowed.contains k = true) :
    wfFlat allowed (es ++ [(k, vstr s)]) = true := by
  simp only [wfFlat, List.all_append, Bool.and_eq_true] at *
  refine ⟨hwf, ?_⟩
  have hmem : k ∈ allowed := by simpa using hk
  simp [asStr, hmem]

theorem wfFlat_setdefault {allowed : List String} {es : List (String × Val)}
    {k : String} {s : String} (hwf : wfFlat allowed es = true)
    (hk : allowed.contains k = true) :
    wfFlat allowed (setdefault es k (vstr s)) = true := by
  unfold setdefault
  split
  · exact hwf
  · exact wfFlat_append hwf hk

theorem strOnly_assoc {es : List (String × Val)} {keys : List String} {k : String}
    (hso : strOnly es keys = true) (hk : k ∈ keys) :
    assoc es k = none ∨ ∃ s, assoc es k = some (vstr s) := by
  unfold strOnly at hso
  rw [List.all_eq_true] at hso
  have := hso k hk
  revert this
  cases h : assoc es k with
  | none => intro _; exact Or.inl rfl
  | some v =>
      cases v with
      | vstr s => intro _; exact Or.inr ⟨s, rfl⟩
      | vnull => intro hfalse; exact Bool.noConfusion hfalse
      | vlist l => intro hfalse; exact Bool.noConfusion hfalse
      | vdict d => intro hfalse; exact Bool.noConfusion hfalse

theorem bind_some_inv {α β : Type} {x : Option α} {f : α → Option β} {b : β}
    (h : x >>= f = some b) : ∃ a, x = some a ∧ f a = some b := by
  cases x with
  | none => exact Option.noConfusion h
  | some a => exact ⟨a, rfl, h⟩

theorem pyGet_append_single_ne {es : List (String × Val)} {k k' : String} {v : Val}
    (h : k' ≠ k) : pyGet (es ++ [(k', v)]) k = pyGet es k := by
  unfold pyGet
  rw [assoc_append_single h]

theorem pyGetD_append_single_ne {es : List (String × Val)} {k k' : String} {v d : Val}
    (h : k' ≠ k) : pyGetD (es ++ [(k', v)]) k d = pyGetD es k d := by
  unfold pyGetD
  rw [assoc_append_single h]

theorem sfield_setdefault_ne {es : List (String × Val)} {k k' : String} {v : Val}
    (h : k' ≠ k) : sfield (setdefault es k' v) k = sfield es k := by
  unfold sfield
  rw [assoc_setdefault_ne h]

theorem sfield_of_assoc {es : List (String × Val)} {k s : String}
    (h : assoc es k = some (vstr s)) : sfield es k = s := by
  unfold sfield
  rw [h]

theorem sfield_ite_setdefault_ne {c : Prop} [Decidable c] {X : List (String × Val)}
    {k k' : String} {v : Val} (h : k' ≠ k) :
    sfield (if c then setdefault X k' v else X) k = sfield X k := by
  split
  · exact sfield_setdefault_ne h
  · rfl

theorem amsndat_from_dict_eq {ad : List (String × Val)}
    {A : AircraftMissionData} (hA : AircraftMissionData.from_dict (vdict ad) = some A) :
    A = { mission_number := sfield ad "mission_number",
          amc_mission_number := sfield ad "amc_mission_number",
          package_identification := sfield ad "package_identification",
          mission_commander := sfield ad "mission_commander",
          primary_mission_type := sfield ad "primary_mission_type",
          secondary_mission_type := sfield ad "secondary_mission_type",
          alert_status := sfield ad "alert_status",
          icao_departure_location := sfield ad "icao_departure_location",
          icao_recovery_base := sfield ad "icao_recovery_base" } := by
  rw [AircraftMissionData.from_dict] at hA
  by_cases hne : ad = []
  · subst hne
    simp only [truthy, List.isEmpty_nil, Bool.not_true] at hA
    exact (Option.some.inj hA).symm
  · rw [truthy_vdict_of_ne hne] at hA
    simp only [Bool.true_eq_false, if_false] at hA
    split at hA
    · exact (Option.some.inj hA).symm
    · exact Option.noConfusion hA

theorem msnacft_from_dict_eq {md : List (String × Val)}
    {M : IndividualAircraftMissionData}
    (hM : IndividualAircraftMissionData.from_dict (vdict md) = some M) :
    M = { number_of_aircraft := sfield md "number_of_aircraft",
          aircraft_call_sign := sfield md "aircraft_call_sign",
          primary_configuration_code := sfield md "primary_configuration_code",
          secondary_configuration_code := sfield md "secondary_configuration_code",
          iff_mode1 := sfield md "iff_mode1",
          iff_mode2 := sfield md "iff_mode2",
          iff_mode3 := sfield md "iff_mode3" } := by
  rw [IndividualAircraftMissionData.from_dict] at hM
  by_cases hne : md = []
  · subst hne
    simp only [truthy, List.isEmpty_nil, Bool.not_true] at hM
    exact (Option.some.inj hM).symm
  · rw [truthy_vdict_of_ne hne] at hM
    simp only [Bool.true_eq_false, if_false] at hM
    split at hM
    · exact (Option.some.inj hM).symm
    · exact Option.noConfusion hM

theorem gtgtloc_from_dict_eq {gd : List (String × Val)}
    {G : GroundTargetLocation}
    (hG : GroundTargetLocation.from_dict (vdict gd) = some G) :
    G = { designator := sfield gd "designator",
          day_time_month_tasked := sfield gd "day_time_month_tasked",
          not_earlier_than := sfield gd "not_earlier_than",
          not_later_than := sfield gd "not_later_than",
          target_facility_name := sfield gd "target_facility_name",
          target_identifier := sfield gd "target_identifier",
          target_type := sfield gd "target_type",
          dmpi_description := sfield gd "dmpi_description",
          dmpi_lat_long := sfield gd "dmpi_lat_long",
          geodetic_datum := sfield gd "geodetic_datum",
          dmpi_elevation := sfield gd "dmpi_elevation",
          component_target_identifier := sfield gd "component_target_identifier" } := by
  rw [GroundTargetLocation.from_dict] at hG
  by_cases hne : gd = []
  · subst hne
    simp only [truthy, List.isEmpty_nil, Bool.not_true] at hG
    exact (Option.some.inj hG).symm
  · rw [truthy_vdict_of_ne hne] at hG
    simp only [Bool.true_eq_false, if_false] at hG
    split at hG
    · exact (Option.some.inj hG).symm
    · exact Option.noConfusion hG

theorem controla_from_dict_eq {cd : List (String × Val)}
    {C : ControlOfAirAssets} (hC : ControlOfAirAssets.from_dict (vdict cd) = some C) :
    C = { agency_type := sfield cd "agency_type",
          call_sign := sfield cd "call_sign",
          primary_frequency := sfield cd "primary_frequency",
          secondary_frequency := sfield cd "secondary_frequency",
          report_in_point := sfield cd "report_in_point" } := by
  rw [ControlOfAirAssets.from_dict] at hC
  by_cases hne : cd = []
  · subst hne
    simp only [truthy, List.isEmpty_nil, Bool.not_true] at hC
    exact (Option.some.inj hC).symm
  · rw [truthy_vdict_of_ne hne] at hC
    simp only [Bool.true_eq_false, if_false] at hC
    split at hC
    · exact (Option.some.inj hC).symm
    · exact Option.noConfusion hC

theorem strOrEmpty_vstr (s : String) : strOrEmpty (vstr s) = some s := by
  unfold strOrEmpty truthy asStr
  by_cases h : s = "" <;> simp [h]

theorem pyUpper_eq_empty_iff {s : String} : pyUpper s = "" ↔ s = "" := by
  constructor
  · intro h
    have h' := congrArg String.data h
    simp only [pyUpper] at h'
    have : s.data = [] := List.map_eq_nil_iff.mp h'
    exact String.ext this
  · intro h
    rw [h]
    rfl


theorem strAt_of_strOnly {es : List (String × Val)} {keys : List String} {k : String}
    (hso : strOnly es keys = true) (hk : k ∈ keys) : strAt es k :=
  strOnly_assoc hso hk

theorem strAt_of_wfFlat {allowed : List String} {es : List (String × Val)} {k : String}
    (hwf : wfFlat allowed es = true) : strAt es k := by
  cases h : assoc es k with
  | none => exact Or.inl h
  | some v =>
      obtain ⟨s, hs⟩ := wfFlat_assoc_str hwf h
      exact Or.inr ⟨s, by rw [h, hs]⟩

theorem pyGetD_str_of_strAt {es : List (String × Val)} {k : String}
    (h : strAt es k) (d : String) : ∃ s, pyGetD es k (vstr d) = vstr s := by
  rcases h with h | ⟨s, hs⟩
  · exact ⟨d, by simp [pyGetD, h]⟩
  · exact ⟨s, by simp [pyGetD, hs]⟩

theorem pyGet_cases_of_strAt {es : List (String × Val)} {k : String}
    (h : strAt es k) : pyGet es k = vnull ∨ ∃ s, pyGet es k = vstr s := by
  rcases h with h | ⟨s, hs⟩
  · exact Or.inl (by simp [pyGet, h])
  · exact Or.inr ⟨s, by simp [pyGet, hs]⟩

theorem asStr_pyOr_vstr {a : Val} {d : String}
    (h : a = vnull ∨ ∃ s, a = vstr s) : ∃ s, asStr (pyOr a (vstr d)) = some s := by
  rcases h with h | ⟨s, hs⟩
  · subst h
    exact ⟨d, rfl⟩
  · subst hs
    by_cases hse : s = ""
    · subst hse
      exact ⟨d, rfl⟩
    · exact ⟨s, by simp [pyOr, truthy, hse, asStr]⟩

theorem asStr_pyOr_getD {es : List (String × Val)} {k1 k2 : String}
    (h1 : strAt es k1) (h2 : strAt es k2) :
    ∃ s, asStr (pyOr (pyGet es k1) (pyGetD es k2 (vstr ""))) = some s := by
  obtain ⟨t, ht⟩ := pyGetD_str_of_strAt h2 ""
  rw [ht]
  exact asStr_pyOr_vstr (pyGet_cases_of_strAt h1)

theorem isSome_bind_eq {α β : Type} {x : Option α} {f : α → Option β} {a : α}
    (hx : x = some a) (hf : ((f a).isSome) = true) : ((x >>= f).isSome) = true := by
  rw [hx]
  exact hf

theorem strGetD_isSome_of_strAt {es : List (String × Val)} {k : String}
    (h : strAt es k) (d : String) : ((strGetD es k d).isSome) = true := by
  rcases h with h | ⟨s, hs⟩ <;> simp [strGetD, *]

theorem strippedOrEmpty_vstr (s : String) :
    strippedOrEmpty (vstr s) = some (pyStrip s) := by
  by_cases h : s = ""
  · subst h
    rfl
  · simp [strippedOrEmpty, isNoneOrEmptyStr, h, asStr]


theorem assoc_append_left {es l : List (String × Val)} {k : String} {v : Val}
    (h : assoc es k = some v) : assoc (es ++ l) k = some v := by
  induction es with
  | nil => exact Option.noConfusion h
  | cons p rest ih =>
      obtain ⟨k', v'⟩ := p
      simp only [assoc, List.cons_append] at h ⊢
      split at h
      · rename_i he
        rw [if_pos he]
        exact h
      · rename_i he
        rw [if_neg he]
        exact ih h

theorem isSome_bind_all {α β : Type} {x : Option α} {f : α → Option β}
    (hx : x.isSome = true) (hf : ∀ a, (f a).isSome = true) :
    ((x >>= f).isSome) = true := by
  cases x with
  | none => exact Bool.noConfusion hx
  | some a => exact hf a

theorem truthy_strAt_vstr {es : List (String × Val)} {k : String}
    (h : strAt es k) (ht : truthy (pyGet es k) = true) :
    ∃ s, pyGet es k = vstr s ∧ s ≠ "" := by
  rcases pyGet_cases_of_strAt h with hv | ⟨s, hs⟩
  · rw [hv] at ht
    exact Bool.noConfusion ht
  · refine ⟨s, hs, ?_⟩
    rw [hs] at ht
    simpa [truthy] using ht

theorem pyOr_getD_vstr {es : List (String × Val)} {k1 k2 : String}
    (h1 : strAt es k1) (h2 : strAt es k2) :
    ∃ t, pyOr (pyGet es k1) (pyGetD es k2 (vstr "")) = vstr t := by
  obtain ⟨t, ht⟩ := pyGetD_str_of_strAt h2 ""
  by_cases htr : truthy (pyGet es k1) = true
  · obtain ⟨s, hs, _⟩ := truthy_strAt_vstr h1 htr
    exact ⟨s, by rw [pyOr, if_pos htr, hs]⟩
  · have htr' : truthy (pyGet es k1) = false := by
      revert htr
      cases truthy (pyGet es k1) <;> simp
    exact ⟨t, by rw [pyOr, htr', ht]; simp⟩

theorem strGet2D_isSome {es : List (String × Val)} {k1 k2 : String} (d : String)
    (h1 : strAt es k1) (h2 : strAt es k2) : (strGet2D es k1 k2 d).isSome = true := by
  rcases h1 with h1 | ⟨s, hs⟩
  · rw [strGet2D, h1]
    exact strGetD_isSome_of_strAt h2 d
  · rw [strGet2D, hs]
    rfl

theorem hdrTimeframe_isSome {es : List (String × Val)} {cur leg : String}
    (h1 : strAt es cur) (h2 : strAt es leg) : (hdrTimeframe es cur leg).isSome = true := by
  rw [hdrTimeframe]
  split
  · rename_i htr
    obtain ⟨s, hs, _⟩ := truthy_strAt_vstr h1 htr
    rw [hs]
    rfl
  · rw [convertIsoVal]
    split
    · rename_i htr
      obtain ⟨s, hs, _⟩ := truthy_strAt_vstr h2 htr
      rw [hs]
      rfl
    · rfl


theorem asStr_pyOr_map_isSome {a : Val} {d : String}
    (h : a = vnull ∨ ∃ s, a = vstr s) :
    ((asStr (pyOr a (vstr d))).map pyUpper).isSome = true := by
  obtain ⟨s, hs⟩ := asStr_pyOr_vstr (d := d) h
  rw [hs]
  rfl

theorem header_from_dict_total {v : Val} (h : wfHeaderVal v = true) :
    (Header.from_dict v).isSome = true := by
  by_cases ht : truthy v = true
  · cases v with
    | vstr s =>
        rw [show wfHeaderVal (vstr s) =
              if truthy (vstr s) = true then false else true from rfl,
          if_pos ht] at h
        exact Bool.noConfusion h
    | vnull => exact Bool.noConfusion ht
    | vlist l =>
        rw [show wfHeaderVal (vlist l) =
              if truthy (vlist l) = true then false else true from rfl,
          if_pos ht] at h
        exact Bool.noConfusion h
    | vdict es =>
        rw [show wfHeaderVal (vdict es) =
              if truthy (vdict es) = true then strOnly es headerReadKeys else true from rfl,
          if_pos ht] at h
        have hso : strOnly es headerReadKeys = true := h
        have hstr : ∀ k, k ∈ headerReadKeys → strAt es k := fun k hk =>
          strAt_of_strOnly hso hk
        rw [Header.from_dict, ht]
        simp only [Bool.true_eq_false, if_false]
        refine isSome_bind_all (strGet2D_isSome _ (hstr _ (by decide)) (hstr _ (by decide)))
          fun opid => ?_
        refine isSome_bind_all (strGet2D_isSome _ (hstr _ (by decide)) (hstr _ (by decide)))
          fun fmtid => ?_
        refine isSome_bind_all (strGet2D_isSome _ (hstr _ (by decide)) (hstr _ (by decide)))
          fun orig => ?_
        refine isSome_bind_all (strGetD_isSome_of_strAt (hstr _ (by decide)) _)
          fun serial => ?_
        refine isSome_bind_all
          (asStr_pyOr_map_isSome (pyGet_cases_of_strAt (hstr _ (by decide))))
          fun month => ?_
        refine isSome_bind_all (strGetD_isSome_of_strAt (hstr _ (by decide)) _)
          fun qual => ?_
        refine isSome_bind_all ?_ fun ack => ?_
        · obtain ⟨t, htd⟩ := pyGetD_str_of_strAt (hstr "acknowledgement_required" (by decide)) "NO"
          rw [htd]
          exact asStr_pyOr_map_isSome (Or.inr ⟨t, rfl⟩)
        refine isSome_bind_all
          (hdrTimeframe_isSome (hstr _ (by decide)) (hstr _ (by decide))) fun tfrom => ?_
        refine isSome_bind_all
          (hdrTimeframe_isSome (hstr _ (by decide)) (hstr _ (by decide))) fun tto => ?_
        refine isSome_bind_all (strGetD_isSome_of_strAt (hstr _ (by decide)) _)
          fun heading => ?_
        rfl
  · have ht' : truthy v = false := by
      revert ht
      cases truthy v <;> simp
    cases v with
    | vstr s =>
        have hs : s = "" := by simpa [truthy] using ht'
        subst hs
        rfl
    | vnull => rfl
    | vlist l =>
        have hl : l = [] := by simpa [truthy] using ht'
        subst hl
        rfl
    | vdict es =>
        have hes : es = [] := truthy_vdict_false ht'
        subst hes
        rfl


theorem pyOr_with_vstr_default {x : Val} (d : String)
    (hx : x = vnull ∨ ∃ s, x = vstr s) : ∃ s, pyOr x (vstr d) = vstr s := by
  rcases hx with hx | ⟨s, hs⟩
  · subst hx
    exact ⟨d, rfl⟩
  · subst hs
    by_cases hse : s = ""
    · subst hse
      exact ⟨d, rfl⟩
    · exact ⟨s, by simp [pyOr, truthy, hse]⟩

theorem pyOr_vstr_cases {x y : Val}
    (hx : x = vnull ∨ ∃ s, x = vstr s) (hy : y = vnull ∨ ∃ s, y = vstr s) :
    pyOr x y = vnull ∨ ∃ s, pyOr x y = vstr s := by
  rcases hx with hx | ⟨s, hs⟩
  · subst hx
    simpa [pyOr, truthy] using hy
  · subst hs
    by_cases hse : s = ""
    · subst hse
      simpa [pyOr, truthy] using hy
    · exact Or.inr ⟨s, by simp [pyOr, truthy, hse]⟩

theorem allotment_from_dict_total {v : Val} (h : wfAllotVal v = true) (f : String) :
    (Allotment.from_dict f v).isSome = true := by
  by_cases ht : truthy v = true
  · cases v with
    | vstr s =>
        rw [show wfAllotVal (vstr s) =
              if truthy (vstr s) = true then false else true from rfl, if_pos ht] at h
        exact Bool.noConfusion h
    | vnull => exact Bool.noConfusion ht
    | vlist l =>
        rw [show wfAllotVal (vlist l) =
              if truthy (vlist l) = true then false else true from rfl, if_pos ht] at h
        exact Bool.noConfusion h
    | vdict es =>
        rw [show wfAllotVal (vdict es) =
              if truthy (vdict es) = true then strOnly es allotReadKeys else true from rfl,
          if_pos ht] at h
        have hso : strOnly es allotReadKeys = true := h
        rw [Allotment.from_dict, ht]
        simp only [Bool.true_eq_false, if_false]
        have hstr : ∀ k, k ∈ allotReadKeys →
            strAt (if hasKey es "id" = true then es else es ++ [("id", vstr f)]) k := by
          intro k hk
          split
          · exact strAt_of_strOnly hso hk
          · rcases strAt_of_strOnly hso hk with hnone | ⟨s, hs⟩
            · by_cases hkid : k = "id"
              · subst hkid
                exact Or.inr ⟨f, assoc_append_self _ _ hnone⟩
              · exact Or.inl (by rw [assoc_append_single (Ne.symm hkid)]; exact hnone)
            · exact Or.inr ⟨s, assoc_append_left hs⟩
        refine isSome_bind_all (strGetD_isSome_of_strAt (hstr "id" (by decide)) _) fun i => ?_
        refine isSome_bind_all ?_ fun unit => ?_
        · obtain ⟨s, hs⟩ := asStr_pyOr_getD (hstr "unit_designator" (by decide))
            (hstr "resource_name" (by decide))
          rw [hs]
          rfl
        refine isSome_bind_all ?_ fun ic => ?_
        · obtain ⟨t, hi⟩ := pyOr_getD_vstr (hstr "icao_base_code" (by decide))
            (hstr "icao" (by decide))
          rw [hi]
          obtain ⟨w, hw⟩ := pyOr_with_vstr_default "" (Or.inr ⟨t, rfl⟩)
          rw [hw]
          rfl
        refine isSome_bind_all ?_ fun cnt => ?_
        · obtain ⟨t, htq⟩ := pyGetD_str_of_strAt (hstr "quantity" (by decide)) ""
          rw [htq]
          obtain ⟨w, hw⟩ := pyOr_with_vstr_default t
            (pyOr_vstr_cases (pyGet_cases_of_strAt (hstr "asset_count" (by decide)))
              (pyGet_cases_of_strAt (hstr "count_of_assets" (by decide))))
          rw [hw, strippedOrEmpty_vstr]
          rfl
        refine isSome_bind_all ?_ fun aty => ?_
        · obtain ⟨t, htq⟩ := pyGetD_str_of_strAt (hstr "mission" (by decide)) ""
          rw [htq]
          obtain ⟨w, hw⟩ := pyOr_with_vstr_default t
            (pyOr_vstr_cases (pyGet_cases_of_strAt (hstr "aircraft_type_model" (by decide)))
              (pyGet_cases_of_strAt (hstr "aircraft_type" (by decide))))
          rw [hw, strippedOrEmpty_vstr]
          rfl
        rfl
  · have ht' : truthy v = false := by
      revert ht
      cases truthy v <;> simp
    cases v with
    | vstr s =>
        have hs : s = "" := by simpa [truthy] using ht'
        subst hs
        rfl
    | vnull => rfl
    | vlist l =>
        have hl : l = [] := by simpa [truthy] using ht'
        subst hl
        rfl
    | vdict es =>
        have hes : es = [] := truthy_vdict_false ht'
        subst hes
        rfl


theorem amsndat_from_dict_total {ad : List (String × Val)}
    (h : wfFlat amsndatKeys ad = true) :
    (AircraftMissionData.from_dict (vdict ad)).isSome = true := by
  by_cases hne : ad = []
  · subst hne
    rfl
  · rw [AircraftMissionData.from_dict, truthy_vdict_of_ne hne]
    simp only [Bool.true_eq_false, if_false]
    rw [if_pos h]
    rfl

theorem msnacft_from_dict_total {md : List (String × Val)}
    (h : wfFlat msnacftKeys md = true) :
    (IndividualAircraftMissionData.from_dict (vdict md)).isSome = true := by
  by_cases hne : md = []
  · subst hne
    rfl
  · rw [IndividualAircraftMissionData.from_dict, truthy_vdict_of_ne hne]
    simp only [Bool.true_eq_false, if_false]
    rw [if_pos h]
    rfl

theorem gtgtloc_from_dict_total {gd : List (String × Val)}
    (h : wfFlat gtgtlocKeys gd = true) :
    (GroundTargetLocation.from_dict (vdict gd)).isSome = true := by
  by_cases hne : gd = []
  · subst hne
    rfl
  · rw [GroundTargetLocation.from_dict, truthy_vdict_of_ne hne]
    simp only [Bool.true_eq_false, if_false]
    rw [if_pos h]
    rfl

theorem controla_from_dict_total {cd : List (String × Val)}
    (h : wfFlat controlaKeys cd = true) :
    (ControlOfAirAssets.from_dict (vdict cd)).isSome = true := by
  by_cases hne : cd = []
  · subst hne
    rfl
  · rw [ControlOfAirAssets.from_dict, truthy_vdict_of_ne hne]
    simp only [Bool.true_eq_false, if_false]
    rw [if_pos h]
    rfl

theorem seg_dict_of_wfSegment {allowed : List String} {es : List (String × Val)}
    {k : String} (h : wfSegmentVal allowed (pyGet es k) = true) :
    ∃ ad, pyOr (pyGet es k) (vdict []) = vdict ad ∧ wfFlat allowed ad = true := by
  by_cases ht : truthy (pyGet es k) = true
  · cases hv : pyGet es k with
    | vstr s =>
        rw [hv] at h ht
        rw [show wfSegmentVal allowed (vstr s) =
              if truthy (vstr s) = true then false else true from rfl, if_pos ht] at h
        exact Bool.noConfusion h
    | vnull =>
        rw [hv] at ht
        exact Bool.noConfusion ht
    | vlist l =>
        rw [hv] at h ht
        rw [show wfSegmentVal allowed (vlist l) =
              if truthy (vlist l) = true then false else true from rfl, if_pos ht] at h
        exact Bool.noConfusion h
    | vdict ad =>
        rw [hv] at h ht
        rw [show wfSegmentVal allowed (vdict ad) =
              if truthy (vdict ad) = true then wfFlat allowed ad else true from rfl,
          if_pos ht] at h
        exact ⟨ad, pyOr_dict_empty ad, h⟩
  · have ht' : truthy (pyGet es k) = false := by
      revert ht
      cases truthy (pyGet es k) <;> simp
    exact ⟨[], by rw [pyOr, ht']; simp, rfl⟩


theorem strAt_setdefault_vstr {es : List (String × Val)} {k k' s : String}
    (h : strAt es k') : strAt (setdefault es k (vstr s)) k' := by
  unfold setdefault
  split
  · exact h
  · rcases h with h | ⟨t, ht2⟩
    · by_cases hkk : k = k'
      · subst hkk
        exact Or.inr ⟨s, assoc_append_self _ _ h⟩
      · exact Or.inl (by rw [assoc_append_single hkk]; exact h)
    · exact Or.inr ⟨t, assoc_append_left ht2⟩

theorem wfFlat_ite_setdefault_getD {c : Prop} [Decidable c] {allowed : List String}
    {X : List (String × Val)} {k : String} {es' : List (String × Val)} {lk : String}
    (hwf : wfFlat allowed X = true) (hk : allowed.contains k = true)
    (hstr : strAt es' lk) :
    wfFlat allowed (if c then setdefault X k (pyGetD es' lk (vstr "")) else X) = true := by
  obtain ⟨s, hs⟩ := pyGetD_str_of_strAt hstr ""
  rw [hs]
  split
  · exact wfFlat_setdefault hwf hk
  · exact hwf

theorem strOrEmpty_pyGetD2_isSome {es : List (String × Val)} {k1 k2 : String}
    (h1 : strAt es k1) (h2 : strAt es k2) :
    (strOrEmpty (pyGetD es k1 (pyGetD es k2 (vstr "")))).isSome = true := by
  obtain ⟨t, ht⟩ := pyGetD_str_of_strAt h2 ""
  rw [ht]
  obtain ⟨s, hs⟩ := pyGetD_str_of_strAt h1 t
  rw [hs, strOrEmpty_vstr]
  rfl

theorem TaskUnit.from_dict_state_total {v : Val} (h : wfTaskUnitVal v = true) :
    (TaskUnit.from_dict_state v).isSome = true := by
  by_cases ht : truthy v = true
  · cases v with
    | vstr s =>
        rw [show wfTaskUnitVal (vstr s) =
              if truthy (vstr s) = true then false else true from rfl, if_pos ht] at h
        exact Bool.noConfusion h
    | vnull => exact Bool.noConfusion ht
    | vlist l =>
        rw [show wfTaskUnitVal (vlist l) =
              if truthy (vlist l) = true then false else true from rfl, if_pos ht] at h
        exact Bool.noConfusion h
    | vdict es =>
        rw [show wfTaskUnitVal (vdict es) =
              if truthy (vdict es) = true then
                (wfSegmentVal amsndatKeys (pyGet es "amsndat") &&
                 wfSegmentVal msnacftKeys (pyGet es "msnacft") &&
                 wfSegmentVal gtgtlocKeys (pyGet es "gtgtloc") &&
                 wfSegmentVal controlaKeys (pyGet es "controla") &&
                 strOnly es tuStrKeys)
              else true from rfl, if_pos ht] at h
        simp only [Bool.and_eq_true] at h
        obtain ⟨⟨⟨⟨hs1, hs2⟩, hs3⟩, hs4⟩, hso⟩ := h
        obtain ⟨ad, had, hadwf⟩ := seg_dict_of_wfSegment hs1
        obtain ⟨md, hmd, hmdwf⟩ := seg_dict_of_wfSegment hs2
        obtain ⟨gd, hgd, hgdwf⟩ := seg_dict_of_wfSegment hs3
        obtain ⟨cd, hcd, hcdwf⟩ := seg_dict_of_wfSegment hs4
        have hstr : ∀ k, k ∈ tuStrKeys → strAt es k := fun k hk => strAt_of_strOnly hso hk
        rw [TaskUnit.from_dict_state, ht]
        simp only [Bool.true_eq_false, if_false]
        refine isSome_bind_eq (by rw [had]; rfl) ?_
        refine isSome_bind_eq (by rw [hmd]; rfl) ?_
        refine isSome_bind_eq (by rw [hgd]; rfl) ?_
        refine isSome_bind_eq (by rw [hcd]; rfl) ?_
        have hstr1 : ∀ k, k ∈ tuStrKeys → strAt (if hasKey es "remarks" = true then
            setdefault es "narrative" (pyGetD es "remarks" (vstr "")) else es) k := by
          intro k hk
          obtain ⟨s, hs⟩ := pyGetD_str_of_strAt (hstr "remarks" (by decide)) ""
          rw [hs]
          split
          · exact strAt_setdefault_vstr (hstr k hk)
          · exact hstr k hk
        refine isSome_bind_all ?_ fun aid => ?_
        · obtain ⟨s, hs⟩ := asStr_pyOr_getD (hstr "allotment_id" (by decide))
            (hstr "resource_id" (by decide))
          rw [hs]
          rfl
        refine isSome_bind_all (amsndat_from_dict_total ?_) fun A => ?_
        · refine wfFlat_ite_setdefault_getD ?_ (by decide) (hstr1 "takeoff_time_utc" (by decide))
          exact wfFlat_ite_setdefault_getD hadwf (by decide) (hstr "mission_type" (by decide))
        refine isSome_bind_all (msnacft_from_dict_total ?_) fun M => ?_
        · refine wfFlat_ite_setdefault_getD ?_ (by decide) (hstr1 "iff_code" (by decide))
          refine wfFlat_ite_setdefault_getD ?_ (by decide) (hstr1 "tail_numbers" (by decide))
          exact wfFlat_ite_setdefault_getD hmdwf (by decide) (hstr "callsign" (by decide))
        refine isSome_bind_all (gtgtloc_from_dict_total ?_) fun G => ?_
        · exact wfFlat_ite_setdefault_getD hgdwf (by decide) (hstr1 "target" (by decide))
        refine isSome_bind_all (controla_from_dict_total ?_) fun C => ?_
        · exact wfFlat_ite_setdefault_getD hcdwf (by decide) (hstr1 "control_agency" (by decide))
        refine isSome_bind_all
          (strOrEmpty_pyGetD2_isSome (hstr1 "amplification" (by decide))
            (hstr1 "ampn" (by decide))) fun ampn => ?_
        refine isSome_bind_all
          (strOrEmpty_pyGetD2_isSome (hstr1 "narrative" (by decide))
            (hstr1 "remarks" (by decide))) fun narr => ?_
        refine isSome_bind_all
          (strGetD_isSome_of_strAt (hstr1 "unit_name" (by decide)) _) fun un => ?_
        refine isSome_bind_all
          (strGetD_isSome_of_strAt (hstr1 "aircraft_type" (by decide)) _) fun aty => ?_
        rfl
  · have ht' : truthy v = false := by
      revert ht
      cases truthy v <;> simp
    cases v with
    | vstr s =>
        have hs : s = "" := by simpa [truthy] using ht'
        subst hs
        rfl
    | vnull => rfl
    | vlist l =>
        have hl : l = [] := by simpa [truthy] using ht'
        subst hl
        rfl
    | vdict es =>
        have hes : es = [] := truthy_vdict_false ht'
        subst hes
        rfl


theorem taskunit_from_dict_total {v : Val} (h : wfTaskUnitVal v = true) :
    (TaskUnit.from_dict v).isSome = true := by
  rw [TaskUnit.from_dict]
  cases hstate : TaskUnit.from_dict_state v with
  | none =>
      have := TaskUnit.from_dict_state_total h
      rw [hstate] at this
      exact Bool.noConfusion this
  | some p => rfl

theorem support_from_dict_total {v : Val}
    (h : wfFlatVal supportKeys v = true) :
    (SupportControlEntry.from_dict v).isSome = true := by
  cases v with
  | vstr s => exact Bool.noConfusion h
  | vnull => exact Bool.noConfusion h
  | vlist l => exact Bool.noConfusion h
  | vdict es =>
      have h' : wfFlat supportKeys es = true := h
      rw [SupportControlEntry.from_dict, if_pos h']
      rfl

theorem spin_from_dict_total {v : Val}
    (h : wfFlatVal spinKeys v = true) :
    (SpinInstruction.from_dict v).isSome = true := by
  cases v with
  | vstr s => exact Bool.noConfusion h
  | vnull => exact Bool.noConfusion h
  | vlist l => exact Bool.noConfusion h
  | vdict es =>
      have h' : wfFlat spinKeys es = true := h
      rw [SpinInstruction.from_dict, if_pos h']
      rfl

theorem footer_from_dict_total {v : Val} (h : wfFlatVal footerKeys v = true) :
    (Footer.from_dict v).isSome = true := by
  cases v with
  | vstr s => exact Bool.noConfusion h
  | vnull => exact Bool.noConfusion h
  | vlist l => exact Bool.noConfusion h
  | vdict es =>
      have h' : wfFlat footerKeys es = true := h
      rw [Footer.from_dict, if_pos h']
      rfl

theorem mapM_isSome_of_all {α β : Type} {f : α → Option β} {items : List α}
    (h : ∀ x ∈ items, (f x).isSome = true) : (items.mapM f).isSome = true := by
  induction items with
  | nil => rfl
  | cons x xs ih =>
      rw [List.mapM_cons]
      refine isSome_bind_all (h x (List.mem_cons_self x xs)) fun y => ?_
      refine isSome_bind_all (ih fun z hz => h z (List.mem_cons_of_mem x hz)) fun ys => ?_
      rfl

theorem optList_cases {p : Val → Bool} {o : Option Val} (h : wfListVal p o = true) :
    ∃ items, optListItems o = some items ∧ ∀ x ∈ items, p x = true := by
  cases o with
  | none => exact ⟨[], rfl, by intro x hx; exact absurd hx (List.not_mem_nil x)⟩
  | some v =>
      cases v with
      | vstr s => exact Bool.noConfusion h
      | vnull => exact Bool.noConfusion h
      | vdict es => exact Bool.noConfusion h
      | vlist items =>
          have h' : items.all p = true := h
          exact ⟨items, rfl, List.all_eq_true.mp h'⟩

theorem idStr_of_wf {es : List (String × Val)}
    (hid : (match assoc es "id" with
            | some (vstr _) => true
            | _ => false) = true) :
    ∃ s, assoc es "id" = some (vstr s) := by
  cases h : assoc es "id" with
  | none => rw [h] at hid; exact Bool.noConfusion hid
  | some v =>
      cases v with
      | vstr s => exact ⟨s, rfl⟩
      | vnull => rw [h] at hid; exact Bool.noConfusion hid
      | vlist l => rw [h] at hid; exact Bool.noConfusion hid
      | vdict d => rw [h] at hid; exact Bool.noConfusion hid

theorem ato_from_dict_total {v : Val} (hwf : wfATOVal v = true) (fresh : Nat → String) :
    (ATO.from_dict fresh v).isSome = true := by
  cases v with
  | vstr s => exact Bool.noConfusion hwf
  | vnull => exact Bool.noConfusion hwf
  | vlist l => exact Bool.noConfusion hwf
  | vdict es =>
      rw [show wfATOVal (vdict es) =
            ((match assoc es "id" with
              | some (vstr _) => true
              | _ => false) &&
             strOnly es ["name"] &&
             wfHeaderVal (pyGetD es "header" (vdict [])) &&
             wfListVal wfAllotVal (assoc es "allotments") &&
             wfListVal wfTaskUnitVal (assoc es "task_units") &&
             wfListVal (wfFlatVal supportKeys) (assoc es "support_control") &&
             wfListVal (wfFlatVal spinKeys) (assoc es "spins") &&
             wfFlatVal footerKeys (pyGetD es "footer" (vdict []))) from rfl] at hwf
      simp only [Bool.and_eq_true] at hwf
      obtain ⟨⟨⟨⟨⟨⟨⟨hid, hname⟩, hhdr⟩, hallot⟩, htu⟩, hsup⟩, hspin⟩, hfoot⟩ := hwf
      obtain ⟨s, hs⟩ := idStr_of_wf hid
      rw [ATO.from_dict, hs]
      refine isSome_bind_eq rfl ?_
      refine isSome_bind_all
        (strGetD_isSome_of_strAt (strAt_of_strOnly hname (by decide)) _) fun name => ?_
      refine isSome_bind_all (header_from_dict_total hhdr) fun hd => ?_
      obtain ⟨items1, hopt1, hall1⟩ := optList_cases hallot
      refine isSome_bind_eq hopt1 ?_
      refine isSome_bind_all (mapM_isSome_of_all ?_) fun als => ?_
      · intro p hp
        rw [List.enum_eq_enumFrom] at hp
        exact allotment_from_dict_total (hall1 p.2 (List.snd_mem_of_mem_enumFrom hp))
          (fresh p.1)
      obtain ⟨items2, hopt2, hall2⟩ := optList_cases htu
      refine isSome_bind_eq hopt2 ?_
      refine isSome_bind_all (mapM_isSome_of_all fun x hx =>
        taskunit_from_dict_total (hall2 x hx)) fun tus => ?_
      obtain ⟨items3, hopt3, hall3⟩ := optList_cases hsup
      refine isSome_bind_eq hopt3 ?_
      refine isSome_bind_all (mapM_isSome_of_all fun x hx =>
        support_from_dict_total (hall3 x hx)) fun sups => ?_
      obtain ⟨items4, hopt4, hall4⟩ := optList_cases hspin
      refine isSome_bind_eq hopt4 ?_
      refine isSome_bind_all (mapM_isSome_of_all fun x hx =>
        spin_from_dict_total (hall4 x hx)) fun spins => ?_
      refine isSome_bind_all (footer_from_dict_total hfoot) fun ft => ?_
      rfl


theorem assoc_ite_setdefault_ne {c : Prop} [Decidable c] {es : List (String × Val)}
    {k k' : String} {v : Val} (h : k' ≠ k) :
    assoc (if c then setdefault es k' v else es) k = assoc es k := by
  split
  · exact assoc_setdefault_ne h
  · rfl

theorem strOnly_of_wfFlat {allowed keys : List String} {es : List (String × Val)}
    (hwf : wfFlat allowed es = true) : strOnly es keys = true := by
  unfold strOnly
  rw [List.all_eq_true]
  intro k hk
  cases h : assoc es k with
  | none => rfl
  | some v =>
      obtain ⟨s, hs⟩ := wfFlat_assoc_str hwf h
      rw [hs]

theorem wfTaskUnit_of_flat {es : List (String × Val)}
    (hwf : wfFlat tuStrKeys es = true)
    (h1 : assoc es "amsndat" = none) (h2 : assoc es "msnacft" = none)
    (h3 : assoc es "gtgtloc" = none) (h4 : assoc es "controla" = none)
    (hne : es ≠ []) : wfTaskUnitVal (vdict es) = true := by
  rw [show wfTaskUnitVal (vdict es) =
        if truthy (vdict es) = true then
          (wfSegmentVal amsndatKeys (pyGet es "amsndat") &&
           wfSegmentVal msnacftKeys (pyGet es "msnacft") &&
           wfSegmentVal gtgtlocKeys (pyGet es "gtgtloc") &&
           wfSegmentVal controlaKeys (pyGet es "controla") &&
           strOnly es tuStrKeys)
        else true from rfl, if_pos (truthy_vdict_of_ne hne)]
  rw [show pyGet es "amsndat" = vnull by simp [pyGet, h1]]
  rw [show pyGet es "msnacft" = vnull by simp [pyGet, h2]]
  rw [show pyGet es "gtgtloc" = vnull by simp [pyGet, h3]]
  rw [show pyGet es "controla" = vnull by simp [pyGet, h4]]
  simp only [Bool.and_eq_true]
  exact ⟨⟨⟨⟨rfl, rfl⟩, rfl⟩, rfl⟩, strOnly_of_wfFlat hwf⟩


/-- C7: a task-unit record in the oldest flat legacy shape — only flat
string fields, carrying `mission_type`, `callsign` and `target`, with no
current-schema nested segments — migrates to a task unit whose
`amsndat.primary_mission_type`, `msnacft.aircraft_call_sign` and
`gtgtloc.target_facility_name` equal the legacy values. -/
theorem c7_legacy_flat_migration (es : List (String × Val)) (m c t : String)
    (hwf : wfFlat tuStrKeys es = true)
    (hm : assoc es "mission_type" = some (vstr m))
    (hc : assoc es "callsign" = some (vstr c))
    (ht : assoc es "target" = some (vstr t)) :
    ∃ u, TaskUnit.from_dict (vdict es) = some u ∧
      u.amsndat.primary_mission_type = m ∧
      u.msnacft.aircraft_call_sign = c ∧
      u.gtgtloc.target_facility_name = t := by
  have hne : es ≠ [] := assoc_ne_nil hm
  have hAm : assoc es "amsndat" = none := wfFlat_assoc_none hwf (by decide)
  have hMs : assoc es "msnacft" = none := wfFlat_assoc_none hwf (by decide)
  have hGt : assoc es "gtgtloc" = none := wfFlat_assoc_none hwf (by decide)
  have hCo : assoc es "controla" = none := wfFlat_assoc_none hwf (by decide)
  have htot := taskunit_from_dict_total (wfTaskUnit_of_flat hwf hAm hMs hGt hCo hne)
  cases hfd : TaskUnit.from_dict (vdict es) with
  | none => rw [hfd] at htot; exact Bool.noConfusion htot
  | some u =>
  refine ⟨u, rfl, ?_⟩
  rw [TaskUnit.from_dict] at hfd
  simp only [Option.map_eq_some'] at hfd
  obtain ⟨p, hst, hp⟩ := hfd
  rw [TaskUnit.from_dict_state, truthy_vdict_of_ne hne] at hst
  simp only [Bool.true_eq_false, if_false] at hst
  rw [show pyGet es "amsndat" = vnull by simp [pyGet, hAm]] at hst
  rw [show pyGet es "msnacft" = vnull by simp [pyGet, hMs]] at hst
  rw [show pyGet es "gtgtloc" = vnull by simp [pyGet, hGt]] at hst
  rw [show pyGet es "controla" = vnull by simp [pyGet, hCo]] at hst
  rw [show pyOr vnull (vdict []) = vdict [] from rfl] at hst
  obtain ⟨ad1, had1, hst⟩ := bind_some_inv hst
  rw [show asDict (vdict []) = some ([] : List (String × Val)) from rfl,
    Option.some.injEq] at had1
  subst had1
  obtain ⟨md1, hmd1, hst⟩ := bind_some_inv hst
  rw [show asDict (vdict []) = some ([] : List (String × Val)) from rfl,
    Option.some.injEq] at hmd1
  subst hmd1
  obtain ⟨gd1, hgd1, hst⟩ := bind_some_inv hst
  rw [show asDict (vdict []) = some ([] : List (String × Val)) from rfl,
    Option.some.injEq] at hgd1
  subst hgd1
  obtain ⟨cd1, hcd1, hst⟩ := bind_some_inv hst
  rw [show asDict (vdict []) = some ([] : List (String × Val)) from rfl,
    Option.some.injEq] at hcd1
  subst hcd1
  obtain ⟨aid, haid, hst⟩ := bind_some_inv hst
  obtain ⟨A, hA, hst⟩ := bind_some_inv hst
  obtain ⟨M, hM, hst⟩ := bind_some_inv hst
  obtain ⟨G, hG, hst⟩ := bind_some_inv hst
  obtain ⟨C, hC, hst⟩ := bind_some_inv hst
  obtain ⟨ampn, hampn, hst⟩ := bind_some_inv hst
  obtain ⟨narr, hnarr, hst⟩ := bind_some_inv hst
  obtain ⟨un, hun, hst⟩ := bind_some_inv hst
  obtain ⟨aty, haty, hst⟩ := bind_some_inv hst
  have hA2 : A.primary_mission_type = m := by
    rw [amsndat_from_dict_eq hA]
    show sfield _ "primary_mission_type" = m
    rw [sfield_ite_setdefault_ne (by decide)]
    simp only [hasKey_of_assoc hm, eq_self_iff_true, if_true]
    rw [show pyGetD es "mission_type" (vstr "") = vstr m by simp [pyGetD, hm]]
    rfl
  have hM2 : M.aircraft_call_sign = c := by
    rw [msnacft_from_dict_eq hM]
    show sfield _ "aircraft_call_sign" = c
    rw [sfield_ite_setdefault_ne (by decide), sfield_ite_setdefault_ne (by decide)]
    simp only [hasKey_of_assoc hc, eq_self_iff_true, if_true]
    rw [show pyGetD es "callsign" (vstr "") = vstr c by simp [pyGetD, hc]]
    rfl
  have hG2 : G.target_facility_name = t := by
    rw [gtgtloc_from_dict_eq hG]
    show sfield _ "target_facility_name" = t
    have htc : hasKey (if hasKey es "remarks" = true then
        setdefault es "narrative" (pyGetD es "remarks" (vstr "")) else es) "target" = true := by
      unfold hasKey
      rw [assoc_ite_setdefault_ne (by decide), ht]
      rfl
    simp only [htc, eq_self_iff_true, if_true]
    rw [show pyGetD (if hasKey es "remarks" = true then
        setdefault es "narrative" (pyGetD es "remarks" (vstr "")) else es) "target" (vstr "") =
        vstr t by unfold pyGetD; rw [assoc_ite_setdefault_ne (by decide), ht]; rfl]
    rfl
  cases hst
  rw [← hp]
  exact ⟨hA2, hM2, hG2⟩


/-! `Nat.repr` is injective and produces only digit characters; used to
tell apart validation messages that embed a 1-based loop index. -/

theorem digitChar_isDigit_lt10 {k : Nat} (h : k < 10) :
    (Nat.digitChar k).isDigit = true := by
  interval_cases k <;> decide

theorem digitVal_digitChar {k : Nat} (h : k < 10) :
    digitVal (Nat.digitChar k) = k := by
  interval_cases k <;> decide

theorem toDigitsCore_all_digits :
    ∀ (fuel n : Nat) (ds : List Char), ds.all Char.isDigit = true →
      (Nat.toDigitsCore 10 fuel n ds).all Char.isDigit = true := by
  intro fuel
  induction fuel with
  | zero => intro n ds h; exact h
  | succ f ih =>
      intro n ds h
      simp only [Nat.toDigitsCore]
      by_cases h0 : n / 10 = 0
      · rw [if_pos h0]
        simp only [List.all_cons, Bool.and_eq_true]
        exact ⟨digitChar_isDigit_lt10 (Nat.mod_lt n (by decide)), h⟩
      · rw [if_neg h0]
        refine ih (n / 10) _ ?_
        simp only [List.all_cons, Bool.and_eq_true]
        exact ⟨digitChar_isDigit_lt10 (Nat.mod_lt n (by decide)), h⟩

theorem evalDigitsFrom_toDigitsCore :
    ∀ (fuel n : Nat), n < fuel → ∀ (ds : List Char),
      evalDigitsFrom 0 (Nat.toDigitsCore 10 fuel n ds) = evalDigitsFrom n ds := by
  intro fuel
  induction fuel with
  | zero => intro n h; exact absurd h (Nat.not_lt_zero n)
  | succ f ih =>
      intro n h ds
      simp only [Nat.toDigitsCore]
      by_cases h0 : n / 10 = 0
      · rw [if_pos h0]
        show evalDigitsFrom (0 * 10 + digitVal (Nat.digitChar (n % 10))) ds =
          evalDigitsFrom n ds
        rw [digitVal_digitChar (Nat.mod_lt n (by decide))]
        have hn : n % 10 = n := by
          have hd := Nat.div_add_mod n 10
          rw [h0] at hd
          omega
        rw [hn, Nat.zero_mul, Nat.zero_add]
      · rw [if_neg h0]
        have hpos : 0 < n := by
          rcases Nat.eq_zero_or_pos n with he | hp
          · exact absurd (by rw [he]) h0
          · exact hp
        have hlt : n / 10 < f := by
          have := Nat.div_lt_self hpos (by decide : 1 < 10)
          omega
        rw [ih (n / 10) hlt (Nat.digitChar (n % 10) :: ds)]
        show evalDigitsFrom (n / 10 * 10 + digitVal (Nat.digitChar (n % 10))) ds =
          evalDigitsFrom n ds
        rw [digitVal_digitChar (Nat.mod_lt n (by decide))]
        have hd := Nat.div_add_mod n 10
        rw [show n / 10 * 10 + n % 10 = n by omega]

theorem evalDigits_repr (n : Nat) : evalDigitsFrom 0 (Nat.repr n).data = n := by
  show evalDigitsFrom 0 (Nat.toDigitsCore 10 (n + 1) n []) = n
  rw [evalDigitsFrom_toDigitsCore (n + 1) n (Nat.lt_succ_self n) []]
  rfl

theorem repr_data_inj {n m : Nat} (h : (Nat.repr n).data = (Nat.repr m).data) :
    n = m := by
  have h1 := evalDigits_repr n
  rw [h, evalDigits_repr m] at h1
  exact h1.symm

theorem repr_all_digits (n : Nat) : (Nat.repr n).data.all Char.isDigit = true := by
  show (Nat.toDigitsCore 10 (n + 1) n []).all Char.isDigit = true
  exact toDigitsCore_all_digits (n + 1) n [] rfl

theorem takeWhile_digits_append {xs ys : List Char}
    (hxs : xs.all Char.isDigit = true) (hy : (ys.headD '*').isDigit = false) :
    (xs ++ ys).takeWhile Char.isDigit = xs ∧
    (xs ++ ys).dropWhile Char.isDigit = ys := by
  induction xs with
  | nil =>
      simp only [List.nil_append]
      cases ys with
      | nil => exact ⟨rfl, rfl⟩
      | cons y ys2 =>
          simp only [List.headD_cons] at hy
          constructor
          · simp only [List.takeWhile_cons, hy, Bool.false_eq_true, if_false]
          · simp only [List.dropWhile_cons, hy, Bool.false_eq_true, if_false]
  | cons x xs2 ih =>
      simp only [List.all_cons, Bool.and_eq_true] at hxs
      have ihh := ih hxs.2
      constructor
      · simp only [List.cons_append, List.takeWhile_cons, hxs.1, if_true, ihh.1]
      · simp only [List.cons_append, List.dropWhile_cons, hxs.1, if_true, ihh.2]

/-- Two strings of the form `prefix ++ decimal index ++ suffix`, with the
same prefix and suffixes that do not start with a digit, are equal only
when index and suffix agree. -/
theorem pre_num_ne (pre : String) {n m : Nat} {s t : String}
    (hs : (s.data.headD '*').isDigit = false)
    (ht : (t.data.headD '*').isDigit = false)
    (hneq : n ≠ m ∨ s ≠ t) :
    pre ++ Nat.repr n ++ s ≠ pre ++ Nat.repr m ++ t := by
  intro e
  have e1 : Nat.repr n ++ s = Nat.repr m ++ t := by
    refine str_append_right_cancel (a := pre) ?_
    rw [← String.append_assoc, ← String.append_assoc]
    exact e
  have e2 := congrArg String.data e1
  rw [strData_append, strData_append] at e2
  have tw1 := takeWhile_digits_append (repr_all_digits n) hs
  have tw2 := takeWhile_digits_append (repr_all_digits m) ht
  have hnm : n = m := repr_data_inj (by rw [← tw1.1, ← tw2.1, e2])
  have hst : s = t := by
    apply String.ext
    rw [← tw1.2, ← tw2.2, e2]
  cases hneq with
  | inl h => exact h hnm
  | inr h => exact h hst

/-- Distinctness of the task-unit messages that start with
`"La Task Unit #"`. -/
theorem idxHead_ne {j idx : Nat} {s t : String}
    (hs : (s.data.headD '*').isDigit = false)
    (ht : (t.data.headD '*').isDigit = false)
    (h : j ≠ idx ∨ s ≠ t) :
    tuIdxHead j ++ s ≠ tuIdxHead idx ++ t :=
  pre_num_ne "La Task Unit #" hs ht h

theorem take_prefix_append {a rest : List Char} (n : Nat)
    (h : n ≤ a.length) : (a ++ rest).take n = a.take n := by
  rw [List.take_append_eq_append_take, Nat.sub_eq_zero_of_le h, List.take_zero,
    List.append_nil]

theorem msg_take {lit sfx : String} (j n : Nat) (h : n ≤ lit.data.length) :
    ((lit ++ Nat.repr j) ++ sfx).data.take n = lit.data.take n := by
  show ((lit.data ++ (Nat.repr j).data) ++ sfx.data).take n = _
  rw [List.append_assoc]
  exact take_prefix_append n h

/-- Messages with distinguishable fixed prefixes differ, whatever their
embedded indices. -/
theorem cross_prefix_ne {lit1 sfx1 lit2 sfx2 : String} {j idx : Nat} (n : Nat)
    (h1 : n ≤ lit1.data.length) (h2 : n ≤ lit2.data.length)
    (hne : lit1.data.take n ≠ lit2.data.take n) :
    (lit1 ++ Nat.repr j) ++ sfx1 ≠ (lit2 ++ Nat.repr idx) ++ sfx2 := by
  apply str_ne_of_take n
  rw [msg_take j n h1, msg_take idx n h2]
  exact hne

/-- A constant message differs from an indexed one with a distinguishable
prefix. -/
theorem fixed_ne_msg {fix lit sfx : String} {idx : Nat} (n : Nat)
    (h2 : n ≤ lit.data.length)
    (hne : fix.data.take n ≠ lit.data.take n) :
    fix ≠ (lit ++ Nat.repr idx) ++ sfx := by
  apply str_ne_of_take n
  rw [msg_take idx n h2]
  exact hne

theorem tuLocRequiredMsg_eq (j : Nat) (lbl : String) :
    tuLocRequiredMsg j lbl =
      tuIdxHead j ++ (" requiere un " ++ (lbl ++ " en AMSNDAT.")) := by
  rw [tuLocRequiredMsg, String.append_assoc, String.append_assoc]

theorem tuShortDtgRequiredMsg_eq (j : Nat) (lbl : String) :
    tuShortDtgRequiredMsg j lbl =
      tuIdxHead j ++ (" requiere un valor para " ++ (lbl ++ " en GTGTLOC.")) := by
  rw [tuShortDtgRequiredMsg, String.append_assoc, String.append_assoc]


/-! Counting occurrences of a validation message. -/

theorem count_if2_ne {cA cB : Prop} [Decidable cA] [Decidable cB] {a b m : String}
    (ha : a ≠ m) (hb : b ≠ m) :
    (if cA then [a] else if cB then [b] else []).count m = 0 := by
  split
  · exact List.count_eq_zero.mpr (by simp only [List.mem_singleton]; exact Ne.symm ha)
  · exact count_if_ne hb

theorem headerDtgErrors_count_ne {label value msg : String}
    (h1 : dtgFormatMsg label ≠ msg) (h2 : dtgRequiredMsg label ≠ msg) :
    (headerDtgErrors label value).count msg = 0 := by
  unfold headerDtgErrors
  split
  · exact count_if_ne h1
  · exact List.count_eq_zero.mpr (by simp only [List.mem_singleton]; exact Ne.symm h2)

theorem allotmentErrors_count_ne {j : Nat} {al : Allotment} {msg : String}
    (h1 : allotUnitMsg j ≠ msg) (h2 : allotIcaoRequiredMsg j ≠ msg)
    (h3 : allotIcaoUpperMsg j ≠ msg) (h4 : allotCountRequiredMsg j ≠ msg)
    (h5 : allotCountNumericMsg j ≠ msg) (h6 : allotActypMsg j ≠ msg) :
    (allotmentErrors j al).count msg = 0 := by
  unfold allotmentErrors
  simp only [List.count_append]
  rw [count_if_ne h1, count_if2_ne h2 h3, count_if2_ne h4 h5, count_if_ne h6]

/-- Every message group of the task-unit loop body except the reference
group counts zero occurrences of a message distinct from all of them. -/
theorem taskUnitErrors_count {year : Nat} {ids : List String} {j : Nat}
    {u : TaskUnit} {msg : String}
    (n2 : tuMissionNumberMsg j ≠ msg)
    (n3 : tuPrimaryRequiredMsg j ≠ msg) (n4 : tuPrimaryInvalidMsg j ≠ msg)
    (n5 : tuSecondaryInvalidMsg j ≠ msg)
    (n6 : tuLocRequiredMsg j "DEPLOC" ≠ msg) (n7 : tuLocUpperMsg j "DEPLOC" ≠ msg)
    (n8 : tuLocRequiredMsg j "ARRLOC" ≠ msg) (n9 : tuLocUpperMsg j "ARRLOC" ≠ msg)
    (n10 : tuNumAircraftMsg j ≠ msg) (n11 : tuNumAircraftNumericMsg j ≠ msg)
    (n12 : tuCallSignMsg j ≠ msg)
    (n13 : tuIffMsg j "MODE 1" ≠ msg) (n14 : tuIffMsg j "MODE 2" ≠ msg)
    (n15 : tuIffMsg j "MODE 3" ≠ msg)
    (n16 : tuDesignatorMsg j ≠ msg)
    (n17 : tuShortDtgRequiredMsg j "NET" ≠ msg)
    (n18 : tuShortDtgFormatMsg j "NET" ≠ msg)
    (n19 : tuShortDtgRequiredMsg j "NLT" ≠ msg)
    (n20 : tuShortDtgFormatMsg j "NLT" ≠ msg)
    (n21 : tuControlAgencyMsg j ≠ msg) (n22 : tuControlCallSignMsg j ≠ msg) :
    (taskUnitErrors year ids j u).count msg =
      (if pyStrip u.allotment_id = "" then [tuMissingRefMsg j]
       else if ¬ ids.contains u.allotment_id then [tuUnresolvedRefMsg j]
       else []).count msg := by
  unfold taskUnitErrors tuLocErrors tuIffErrors tuShortDtgErrors
  simp only [List.count_append]
  rw [count_if_ne n2, count_if2_ne n3 n4, count_if_ne n5, count_if2_ne n6 n7,
    count_if2_ne n8 n9, count_if2_ne n10 n11, count_if_ne n12, count_if_ne n13,
    count_if_ne n14, count_if_ne n15, count_if_ne n16, count_if2_ne n17 n18,
    count_if2_ne n19 n20, count_if_ne n21, count_if_ne n22]
  omega

theorem taskUnitErrors_count_unres (year : Nat) (ids : List String) (j idx : Nat)
    (u : TaskUnit) :
    (taskUnitErrors year ids j u).count (tuUnresolvedRefMsg idx) =
      (if pyStrip u.allotment_id = "" then [tuMissingRefMsg j]
       else if ¬ ids.contains u.allotment_id then [tuUnresolvedRefMsg j]
       else []).count (tuUnresolvedRefMsg idx) := by
  refine taskUnitErrors_count ?_ ?_ ?_ ?_ ?_ ?_ ?_ ?_ ?_ ?_ ?_ ?_ ?_ ?_ ?_ ?_ ?_ ?_ ?_ ?_ ?_
  · exact idxHead_ne (by decide) (by decide) (Or.inr (by decide))
  · exact idxHead_ne (by decide) (by decide) (Or.inr (by decide))
  · exact cross_prefix_ne 2 (by decide) (by decide) (by decide)
  · exact cross_prefix_ne 2 (by decide) (by decide) (by decide)
  · rw [tuLocRequiredMsg_eq]
    exact idxHead_ne (by decide) (by decide) (Or.inr (by decide))
  · exact cross_prefix_ne 2 (by decide) (by decide) (by decide)
  · rw [tuLocRequiredMsg_eq]
    exact idxHead_ne (by decide) (by decide) (Or.inr (by decide))
  · exact cross_prefix_ne 2 (by decide) (by decide) (by decide)
  · exact idxHead_ne (by decide) (by decide) (Or.inr (by decide))
  · exact cross_prefix_ne 2 (by decide) (by decide) (by decide)
  · exact idxHead_ne (by decide) (by decide) (Or.inr (by decide))
  · exact cross_prefix_ne 2 (by decide) (by decide) (by decide)
  · exact cross_prefix_ne 2 (by decide) (by decide) (by decide)
  · exact cross_prefix_ne 2 (by decide) (by decide) (by decide)
  · exact idxHead_ne (by decide) (by decide) (Or.inr (by decide))
  · rw [tuShortDtgRequiredMsg_eq]
    exact idxHead_ne (by decide) (by decide) (Or.inr (by decide))
  · exact cross_prefix_ne 2 (by decide) (by decide) (by decide)
  · rw [tuShortDtgRequiredMsg_eq]
    exact idxHead_ne (by decide) (by decide) (Or.inr (by decide))
  · exact cross_prefix_ne 2 (by decide) (by decide) (by decide)
  · exact idxHead_ne (by decide) (by decide) (Or.inr (by decide))
  · exact idxHead_ne (by decide) (by decide) (Or.inr (by decide))

theorem taskUnitErrors_count_missing (year : Nat) (ids : List String) (j idx : Nat)
    (u : TaskUnit) :
    (taskUnitErrors year ids j u).count (tuMissingRefMsg idx) =
      (if pyStrip u.allotment_id = "" then [tuMissingRefMsg j]
       else if ¬ ids.contains u.allotment_id then [tuUnresolvedRefMsg j]
       else []).count (tuMissingRefMsg idx) := by
  refine taskUnitErrors_count ?_ ?_ ?_ ?_ ?_ ?_ ?_ ?_ ?_ ?_ ?_ ?_ ?_ ?_ ?_ ?_ ?_ ?_ ?_ ?_ ?_
  · exact idxHead_ne (by decide) (by decide) (Or.inr (by decide))
  · exact idxHead_ne (by decide) (by decide) (Or.inr (by decide))
  · exact cross_prefix_ne 2 (by decide) (by decide) (by decide)
  · exact cross_prefix_ne 2 (by decide) (by decide) (by decide)
  · rw [tuLocRequiredMsg_eq]
    exact idxHead_ne (by decide) (by decide) (Or.inr (by decide))
  · exact cross_prefix_ne 2 (by decide) (by decide) (by decide)
  · rw [tuLocRequiredMsg_eq]
    exact idxHead_ne (by decide) (by decide) (Or.inr (by decide))
  · exact cross_prefix_ne 2 (by decide) (by decide) (by decide)
  · exact idxHead_ne (by decide) (by decide) (Or.inr (by decide))
  · exact cross_prefix_ne 2 (by decide) (by decide) (by decide)
  · exact idxHead_ne (by decide) (by decide) (Or.inr (by decide))
  · exact cross_prefix_ne 2 (by decide) (by decide) (by decide)
  · exact cross_prefix_ne 2 (by decide) (by decide) (by decide)
  · exact cross_prefix_ne 2 (by decide) (by decide) (by decide)
  · exact idxHead_ne (by decide) (by decide) (Or.inr (by decide))
  · rw [tuShortDtgRequiredMsg_eq]
    exact idxHead_ne (by decide) (by decide) (Or.inr (by decide))
  · exact cross_prefix_ne 2 (by decide) (by decide) (by decide)
  · rw [tuShortDtgRequiredMsg_eq]
    exact idxHead_ne (by decide) (by decide) (Or.inr (by decide))
  · exact cross_prefix_ne 2 (by decide) (by decide) (by decide)
  · exact idxHead_ne (by decide) (by decide) (Or.inr (by decide))
  · exact idxHead_ne (by decide) (by decide) (Or.inr (by decide))

theorem taskUnitErrors_unres_on {year : Nat} {ids : List String} {idx : Nat}
    {u : TaskUnit}
    (h1 : pyStrip u.allotment_id ≠ "") (h2 : ids.contains u.allotment_id = false) :
    (taskUnitErrors year ids idx u).count (tuUnresolvedRefMsg idx) = 1 := by
  have hc : ¬ ids.contains u.allotment_id := fun hc => by
    rw [h2] at hc
    exact Bool.noConfusion hc
  rw [taskUnitErrors_count_unres, if_neg h1, if_pos hc]
  simp

theorem taskUnitErrors_unres_off {year : Nat} {ids : List String} {j idx : Nat}
    {u : TaskUnit} (hj : j ≠ idx) :
    (taskUnitErrors year ids j u).count (tuUnresolvedRefMsg idx) = 0 := by
  have hm : tuMissingRefMsg j ≠ tuUnresolvedRefMsg idx :=
    idxHead_ne (by decide) (by decide) (Or.inr (by decide))
  have hu2 : tuUnresolvedRefMsg j ≠ tuUnresolvedRefMsg idx :=
    idxHead_ne (by decide) (by decide) (Or.inl hj)
  rw [taskUnitErrors_count_unres]
  split
  · exact List.count_eq_zero.mpr (by simp only [List.mem_singleton]; exact Ne.symm hm)
  · split
    · exact List.count_eq_zero.mpr
        (by simp only [List.mem_singleton]; exact Ne.symm hu2)
    · rfl

theorem taskUnitErrors_missing_zero {year : Nat} {ids : List String} {idx : Nat}
    {u : TaskUnit} (h1 : pyStrip u.allotment_id ≠ "") :
    (taskUnitErrors year ids idx u).count (tuMissingRefMsg idx) = 0 := by
  have hu2 : tuUnresolvedRefMsg idx ≠ tuMissingRefMsg idx :=
    idxHead_ne (by decide) (by decide) (Or.inr (by decide))
  rw [taskUnitErrors_count_missing, if_neg h1]
  split
  · exact List.count_eq_zero.mpr (by simp only [List.mem_singleton]; exact Ne.symm hu2)
  · rfl

theorem enumConcat_count_zero {α : Type} {f : Nat → α → List String} {msg : String} :
    ∀ (xs : List α) (s : Nat), (∀ k x, s ≤ k → (f k x).count msg = 0) →
      (enumConcat s xs f).count msg = 0 := by
  intro xs
  induction xs with
  | nil => intro s h; rfl
  | cons x rest ih =>
      intro s h
      show (f s x ++ enumConcat (s + 1) rest f).count msg = 0
      rw [List.count_append, h s x (Nat.le_refl s),
        ih (s + 1) (fun k y hk => h k y (Nat.le_of_succ_le hk))]

theorem enumConcat_count_at {α : Type} {f : Nat → α → List String} {msg : String}
    {idx : Nat} (hoff : ∀ k x, k ≠ idx → (f k x).count msg = 0) :
    ∀ (xs : List α) (s i : Nat) (u : α), xs[i]? = some u → s + i = idx →
      (enumConcat s xs f).count msg = (f idx u).count msg := by
  intro xs
  induction xs with
  | nil =>
      intro s i u hget _
      rw [List.getElem?_nil] at hget
      exact Option.noConfusion hget
  | cons x rest ih =>
      intro s i u hget hidx
      show (f s x ++ enumConcat (s + 1) rest f).count msg = (f idx u).count msg
      rw [List.count_append]
      cases i with
      | zero =>
          rw [List.getElem?_cons_zero, Option.some.injEq] at hget
          subst hget
          have hs : s = idx := by omega
          subst hs
          rw [enumConcat_count_zero rest (s + 1) (fun k y hk => hoff k y (by omega))]
          omega
      | succ i2 =>
          rw [List.getElem?_cons_succ] at hget
          rw [hoff s x (by omega), Nat.zero_add]
          exact ih (s + 1) i2 u hget (by omega)

/-- The full validation output of an ATO contains exactly one unresolved
reference message for the `i`-th task unit (1-based index `i + 1`) when
that unit has a non-blank reference that matches no allotment id. -/
theorem validate_count_unres {a : ATO} {year i : Nat} {u : TaskUnit}
    (hget : a.task_units[i]? = some u)
    (h1 : pyStrip u.allotment_id ≠ "")
    (h2 : (a.allotments.map fun al => al.id).contains u.allotment_id = false) :
    (a.validate year).count (tuUnresolvedRefMsg (i + 1)) = 1 := by
  have f1 : nameRequiredMsg ≠ tuUnresolvedRefMsg (i + 1) :=
    fixed_ne_msg 2 (by decide) (by decide)
  have f2 : operRequiredMsg ≠ tuUnresolvedRefMsg (i + 1) :=
    fixed_ne_msg 2 (by decide) (by decide)
  have f3 : msgidFormatRequiredMsg ≠ tuUnresolvedRefMsg (i + 1) :=
    fixed_ne_msg 2 (by decide) (by decide)
  have f4 : msgidOriginatorRequiredMsg ≠ tuUnresolvedRefMsg (i + 1) :=
    fixed_ne_msg 2 (by decide) (by decide)
  have f5 : msgidSerialRequiredMsg ≠ tuUnresolvedRefMsg (i + 1) :=
    fixed_ne_msg 2 (by decide) (by decide)
  have f6 : msgidMonthMsg ≠ tuUnresolvedRefMsg (i + 1) :=
    fixed_ne_msg 2 (by decide) (by decide)
  have f7 : aknldgMsg ≠ tuUnresolvedRefMsg (i + 1) :=
    fixed_ne_msg 2 (by decide) (by decide)
  have g1 : dtgFormatMsg "TIMEFRAM - FROM" ≠ tuUnresolvedRefMsg (i + 1) :=
    fixed_ne_msg 4 (by decide) (by decide)
  have g2 : dtgRequiredMsg "TIMEFRAM - FROM" ≠ tuUnresolvedRefMsg (i + 1) :=
    fixed_ne_msg 4 (by decide) (by decide)
  have g3 : dtgFormatMsg "TIMEFRAM - TO" ≠ tuUnresolvedRefMsg (i + 1) :=
    fixed_ne_msg 4 (by decide) (by decide)
  have g4 : dtgRequiredMsg "TIMEFRAM - TO" ≠ tuUnresolvedRefMsg (i + 1) :=
    fixed_ne_msg 4 (by decide) (by decide)
  have hAllot : (enumConcat 1 a.allotments allotmentErrors).count
      (tuUnresolvedRefMsg (i + 1)) = 0 :=
    enumConcat_count_zero a.allotments 1 (fun k al _ =>
      allotmentErrors_count_ne
        (cross_prefix_ne 2 (by decide) (by decide) (by decide))
        (cross_prefix_ne 2 (by decide) (by decide) (by decide))
        (cross_prefix_ne 2 (by decide) (by decide) (by decide))
        (cross_prefix_ne 2 (by decide) (by decide) (by decide))
        (cross_prefix_ne 2 (by decide) (by decide) (by decide))
        (cross_prefix_ne 2 (by decide) (by decide) (by decide)))
  have hTU : (enumConcat 1 a.task_units
      (taskUnitErrors year (a.allotments.map fun al => al.id))).count
        (tuUnresolvedRefMsg (i + 1)) =
      (taskUnitErrors year (a.allotments.map fun al => al.id) (i + 1) u).count
        (tuUnresolvedRefMsg (i + 1)) :=
    enumConcat_count_at (fun k x hk => taskUnitErrors_unres_off hk)
      a.task_units 1 i u hget (by omega)
  unfold ATO.validate
  simp only [List.count_append]
  rw [count_if_ne f1, count_if_ne f2, count_if_ne f3, count_if_ne f4,
    count_if_ne f5, count_if_ne f6, count_if_ne f7,
    headerDtgErrors_count_ne g1 g2, headerDtgErrors_count_ne g3 g4,
    hAllot, hTU, taskUnitErrors_unres_on h1 h2]

theorem lookupAllotment_none {als : List Allotment} {aid : String}
    (h : (als.map fun al => al.id).contains aid = false) :
    lookupAllotment als aid = none := by
  have key : ∀ (ls : List Allotment) ,
      (ls.map fun al => al.id).contains aid = false →
      ls.foldl (fun acc al => if al.id = aid then some al else acc) none = none := by
    intro ls
    induction ls with
    | nil => intro _; rfl
    | cons al rest ih =>
        intro hh
        simp only [List.map_cons, List.contains_cons, Bool.or_eq_false_iff] at hh
        obtain ⟨hh1, hh2⟩ := hh
        show rest.foldl (fun acc al => if al.id = aid then some al else acc)
          (if al.id = aid then some al else none) = none
        rw [if_neg (fun e => by rw [e] at hh1; simp at hh1)]
        exact ih hh2
  exact key als h

theorem taskunit_line_eq (x : String) :
    "TASKUNIT/" ++ x ++ "/ICAO:" ++ "NA" ++ "//" =
      "TASKUNIT/" ++ x ++ "/ICAO:NA//" := by
  rw [String.append_assoc ("TASKUNIT/" ++ x ++ "/ICAO:") "NA" "//",
    String.append_assoc ("TASKUNIT/" ++ x) "/ICAO:" ("NA" ++ "//")]
  rfl

/-- The fallback task-unit lines when the allotment reference resolves to
nothing. -/
theorem taskUnitLines_fallback {als : List Allotment} {u : TaskUnit}
    (hsel : lookupAllotment als u.allotment_id = none) :
    ("TASKUNIT/" ++ orNA u.unit_name ++ "/ICAO:NA//") ∈ taskUnitLines als u ∧
    ("MSNACFT/" ++ pyJoin "/"
        [dashOr (if u.msnacft.number_of_aircraft = "" then pyOrStr "NA" "-"
                 else u.msnacft.number_of_aircraft),
         "ACTYP:" ++ orNA (orNA u.aircraft_type),
         dashOr u.msnacft.aircraft_call_sign,
         dashOr u.msnacft.primary_configuration_code,
         dashOr u.msnacft.secondary_configuration_code,
         iffFragment "1" u.msnacft.iff_mode1,
         iffFragment "2" u.msnacft.iff_mode2,
         iffFragment "3" u.msnacft.iff_mode3] ++ "//") ∈ taskUnitLines als u := by
  constructor
  · simp only [taskUnitLines, hsel]
    apply List.mem_append_left
    apply List.mem_append_left
    rw [← taskunit_line_eq]
    exact List.mem_cons_self _ _
  · simp only [taskUnitLines, hsel]
    apply List.mem_append_left
    apply List.mem_append_left
    exact List.mem_cons_of_mem _ (List.mem_cons_of_mem _ (List.mem_cons_self _ _))

theorem mem_exportLines_of_taskUnitLines {a : ATO} {u : TaskUnit} {line : String}
    (hmem : u ∈ a.task_units) (hl : line ∈ taskUnitLines a.allotments u) :
    line ∈ exportLines a := by
  have hne : a.task_units.isEmpty = false := by
    cases hu : a.task_units with
    | nil => rw [hu] at hmem; exact absurd hmem (List.not_mem_nil u)
    | cons x xs => rfl
  have h2 : line ∈ (if a.task_units.isEmpty then ([] : List String)
      else "//TASKUNITS" :: (a.task_units.map (taskUnitLines a.allotments)).flatten) := by
    simp only [hne, Bool.false_eq_true, if_false]
    exact List.mem_cons_of_mem _ (List.mem_flatten.mpr
      ⟨taskUnitLines a.allotments u, List.mem_map_of_mem _ hmem, hl⟩)
  unfold exportLines
  exact List.mem_append_left _ (List.mem_append_left _ (List.mem_append_left _
    (List.mem_append_right _ h2)))


/-! Round-trip of the canonical dictionary forms through the loaders. -/

theorem pyOr_vstr_empty (s : String) : pyOr (vstr s) (vstr "") = vstr s := by
  unfold pyOr
  split
  · rfl
  · rename_i hf
    have hs : s = "" := by
      by_contra hc
      exact hf (decide_eq_true hc)
    rw [hs]

theorem pyOr2_vstr_null (s : String) :
    pyOr (pyOr (vstr s) vnull) (vstr "") = vstr s := by
  by_cases hs : s = ""
  · subst hs
    rfl
  · have ht : truthy (vstr s) = true := decide_eq_true hs
    rw [show pyOr (vstr s) vnull = vstr s from if_pos ht]
    exact if_pos ht

theorem hdrTimeframe_roundtrip {es : List (String × Val)} {cur leg : String}
    {s : String} (hcur : pyGet es cur = vstr s) (hleg : pyGet es leg = vnull) :
    hdrTimeframe es cur leg = some s := by
  unfold hdrTimeframe
  rw [hcur, hleg]
  by_cases hs : s = ""
  · subst hs
    rw [show truthy (vstr "") = false from rfl]
    simp only [Bool.false_eq_true, if_false]
    rfl
  · rw [if_pos (show truthy (vstr s) = true from decide_eq_true hs)]
    rfl

/-- Loading back a canonical header is exact when the month and the
acknowledgement flag are non-blank and already upper-case (the loader
substitutes defaults for blank values and upper-cases both). -/
theorem header_roundtrip (h : Header)
    (hm1 : h.msg_month ≠ "") (hm2 : pyUpper h.msg_month = h.msg_month)
    (ha1 : h.acknowledgement_required ≠ "")
    (ha2 : pyUpper h.acknowledgement_required = h.acknowledgement_required) :
    Header.from_dict h.to_dict = some h := by
  show ((asStr (pyOr (vstr h.msg_month) (vstr "JAN"))).map pyUpper >>= fun month =>
        (asStr (pyOr (vstr h.acknowledgement_required) (vstr "NO"))).map pyUpper >>=
          fun ack =>
        hdrTimeframe
          [("operation_identification_data", vstr h.operation_identification_data),
           ("msg_text_format_identifier", vstr h.msg_text_format_identifier),
           ("msg_originator", vstr h.msg_originator),
           ("msg_serial", vstr h.msg_serial),
           ("msg_month", vstr h.msg_month),
           ("msg_qualifier", vstr h.msg_qualifier),
           ("acknowledgement_required", vstr h.acknowledgement_required),
           ("timeframe_from", vstr h.timeframe_from),
           ("timeframe_to", vstr h.timeframe_to),
           ("heading", vstr h.heading)]
          "timeframe_from" "effective_time_utc" >>= fun tfrom =>
        hdrTimeframe
          [("operation_identification_data", vstr h.operation_identification_data),
           ("msg_text_format_identifier", vstr h.msg_text_format_identifier),
           ("msg_originator", vstr h.msg_originator),
           ("msg_serial", vstr h.msg_serial),
           ("msg_month", vstr h.msg_month),
           ("msg_qualifier", vstr h.msg_qualifier),
           ("acknowledgement_required", vstr h.acknowledgement_required),
           ("timeframe_from", vstr h.timeframe_from),
           ("timeframe_to", vstr h.timeframe_to),
           ("heading", vstr h.heading)]
          "timeframe_to" "expiry_time_utc" >>= fun tto =>
        some { operation_identification_data := h.operation_identification_data,
               msg_text_format_identifier := h.msg_text_format_identifier,
               msg_originator := h.msg_originator,
               msg_serial := h.msg_serial,
               msg_month := month,
               msg_qualifier := h.msg_qualifier,
               acknowledgement_required := ack,
               timeframe_from := tfrom,
               timeframe_to := tto,
               heading := h.heading }) = some h
  have e3 : hdrTimeframe
      [("operation_identification_data", vstr h.operation_identification_data),
       ("msg_text_format_identifier", vstr h.msg_text_format_identifier),
       ("msg_originator", vstr h.msg_originator),
       ("msg_serial", vstr h.msg_serial),
       ("msg_month", vstr h.msg_month),
       ("msg_qualifier", vstr h.msg_qualifier),
       ("acknowledgement_required", vstr h.acknowledgement_required),
       ("timeframe_from", vstr h.timeframe_from),
       ("timeframe_to", vstr h.timeframe_to),
       ("heading", vstr h.heading)]
      "timeframe_from" "effective_time_utc" = some h.timeframe_from :=
    hdrTimeframe_roundtrip rfl rfl
  have e4 : hdrTimeframe
      [("operation_identification_data", vstr h.operation_identification_data),
       ("msg_text_format_identifier", vstr h.msg_text_format_identifier),
       ("msg_originator", vstr h.msg_originator),
       ("msg_serial", vstr h.msg_serial),
       ("msg_month", vstr h.msg_month),
       ("msg_qualifier", vstr h.msg_qualifier),
       ("acknowledgement_required", vstr h.acknowledgement_required),
       ("timeframe_from", vstr h.timeframe_from),
       ("timeframe_to", vstr h.timeframe_to),
       ("heading", vstr h.heading)]
      "timeframe_to" "expiry_time_utc" = some h.timeframe_to :=
    hdrTimeframe_roundtrip rfl rfl
  rw [show pyOr (vstr h.msg_month) (vstr "JAN") = vstr h.msg_month from
      if_pos (decide_eq_true hm1),
    show (asStr (vstr h.msg_month)).map pyUpper = some (pyUpper h.msg_month) from rfl,
    hm2,
    show pyOr (vstr h.acknowledgement_required) (vstr "NO") =
        vstr h.acknowledgement_required from if_pos (decide_eq_true ha1),
    show (asStr (vstr h.acknowledgement_required)).map pyUpper =
        some (pyUpper h.acknowledgement_required) from rfl,
    ha2, e3, e4]
  rfl

/-- Loading back a canonical allotment is exact when the ICAO is already
upper-case and the counts and type are already stripped. -/
theorem allotment_roundtrip (al : Allotment) (f : String)
    (h1 : pyUpper al.icao_base_code = al.icao_base_code)
    (h2 : pyStrip al.asset_count = al.asset_count)
    (h3 : pyStrip al.aircraft_type_model = al.aircraft_type_model) :
    Allotment.from_dict f al.to_dict = some al := by
  show (asStr (pyOr (vstr al.unit_designator) (vstr "")) >>= fun unit =>
        (asStr (pyOr (pyOr (vstr al.icao_base_code) (vstr "")) (vstr ""))).map
          pyUpper >>= fun icao =>
        strippedOrEmpty (pyOr (pyOr (vstr al.asset_count) vnull) (vstr "")) >>=
          fun count =>
        strippedOrEmpty (pyOr (pyOr (vstr al.aircraft_type_model) vnull)
          (vstr "")) >>= fun actyp =>
        some { id := al.id, unit_designator := unit, icao_base_code := icao,
               asset_count := count, aircraft_type_model := actyp }) = some al
  rw [pyOr_vstr_empty al.unit_designator,
    show asStr (vstr al.unit_designator) = some al.unit_designator from rfl,
    pyOr_vstr_empty al.icao_base_code, pyOr_vstr_empty al.icao_base_code,
    show (asStr (vstr al.icao_base_code)).map pyUpper =
      some (pyUpper al.icao_base_code) from rfl,
    h1, pyOr2_vstr_null al.asset_count, strippedOrEmpty_vstr, h2,
    pyOr2_vstr_null al.aircraft_type_model, strippedOrEmpty_vstr, h3]
  rfl

/-- Loading back a canonical task unit is exact. -/
theorem taskunit_roundtrip (u : TaskUnit) :
    TaskUnit.from_dict u.to_dict = some u := by
  show Option.map Prod.fst
      (asStr (pyOr (vstr u.allotment_id) (vstr "")) >>= fun aid =>
       strOrEmpty (vstr u.amplification) >>= fun ampn =>
       strOrEmpty (vstr u.narrative) >>= fun narr =>
       some (({ allotment_id := aid, amsndat := u.amsndat, msnacft := u.msnacft,
                gtgtloc := u.gtgtloc, controla := u.controla,
                amplification := ampn, narrative := narr,
                unit_name := u.unit_name, aircraft_type := u.aircraft_type } :
                TaskUnit), u.to_dict)) = some u
  rw [pyOr_vstr_empty u.allotment_id,
    show asStr (vstr u.allotment_id) = some u.allotment_id from rfl,
    strOrEmpty_vstr, strOrEmpty_vstr]
  rfl

theorem support_roundtrip (x : SupportControlEntry) :
    SupportControlEntry.from_dict x.to_dict = some x := rfl

theorem spin_roundtrip (x : SpinInstruction) :
    SpinInstruction.from_dict x.to_dict = some x := rfl

theorem footer_roundtrip (x : Footer) :
    Footer.from_dict x.to_dict = some x := rfl

theorem allot_mapM_roundtrip (fresh : Nat → String) :
    ∀ (als : List Allotment) (k : Nat),
      (∀ al ∈ als, pyUpper al.icao_base_code = al.icao_base_code ∧
        pyStrip al.asset_count = al.asset_count ∧
        pyStrip al.aircraft_type_model = al.aircraft_type_model) →
      ((als.map Allotment.to_dict).enumFrom k).mapM
        (fun p => Allotment.from_dict (fresh p.1) p.2) = some als := by
  intro als
  induction als with
  | nil => intro k _; rfl
  | cons al rest ih =>
      intro k hall
      show (((k, al.to_dict) :: ((rest.map Allotment.to_dict).enumFrom (k + 1))).mapM
        (fun p => Allotment.from_dict (fresh p.1) p.2)) = some (al :: rest)
      simp only [List.mapM_cons]
      obtain ⟨h1, h2, h3⟩ := hall al (List.mem_cons_self _ _)
      rw [allotment_roundtrip al (fresh k) h1 h2 h3,
        ih (k + 1) (fun x hx => hall x (List.mem_cons_of_mem _ hx))]
      rfl

theorem tus_mapM_roundtrip :
    ∀ (tus : List TaskUnit),
      (tus.map TaskUnit.to_dict).mapM TaskUnit.from_dict = some tus := by
  intro tus
  induction tus with
  | nil => rfl
  | cons u rest ih =>
      rw [List.map_cons, List.mapM_cons, taskunit_roundtrip u, ih]
      rfl

theorem support_mapM_roundtrip :
    ∀ (xs : List SupportControlEntry),
      (xs.map SupportControlEntry.to_dict).mapM SupportControlEntry.from_dict =
        some xs := by
  intro xs
  induction xs with
  | nil => rfl
  | cons x rest ih =>
      rw [List.map_cons, List.mapM_cons, support_roundtrip x, ih]
      rfl

theorem spins_mapM_roundtrip :
    ∀ (xs : List SpinInstruction),
      (xs.map SpinInstruction.to_dict).mapM SpinInstruction.from_dict = some xs := by
  intro xs
  induction xs with
  | nil => rfl
  | cons x rest ih =>
      rw [List.map_cons, List.mapM_cons, spin_roundtrip x, ih]
      rfl

/-! Claim theorems. -/

/-- C4: the ATO named `OP1` with header operation id `OP1`, originator
`AOC`, serial `001`, month `JAN`, empty qualifier, acknowledgement `NO`,
default heading, empty timeframes and no allotments, task units, support
entries, spins or footer content serializes to exactly six
newline-separated lines in order: the `OPER` line, `MSGID/ATO/AOC/001/JAN//`,
`AKNLDG/NO//`, the `TIMEFRAM` line with both placeholders,
`HEADING/TASKING//`, and the `DECL` line with all three placeholders. -/
theorem c4_export_literal_example :
    exportLines c4Ato =
      ["OPER/OP1//", "MSGID/ATO/AOC/001/JAN//", "AKNLDG/NO//",
       "TIMEFRAM/FROM:NA/TO:NA//", "HEADING/TASKING//",
       "DECL/AUTH:N/A;PREP:N/A;REL:N/A//"] ∧
    export_ato_to_text c4Ato =
      "OPER/OP1//\nMSGID/ATO/AOC/001/JAN//\nAKNLDG/NO//\nTIMEFRAM/FROM:NA/TO:NA//\nHEADING/TASKING//\nDECL/AUTH:N/A;PREP:N/A;REL:N/A//" :=
  ⟨rfl, rfl⟩

/-- C10: for every ATO whose header operation identifier is blank, the
first serialized line is `OPER/` followed by the display name and `//`. -/
theorem c10_oper_line_uses_display_name (a : ATO)
    (h : a.header.operation_identification_data = "") :
    (exportLines a).head? = some ("OPER/" ++ a.name ++ "//") := by
  simp [exportLines, headerLines, pyOrStr, h]

/-- C10 witness: the fallback at a concrete ATO. -/
theorem c10_oper_line_uses_display_name_witness :
    c10Ato.header.operation_identification_data = "" ∧
    (exportLines c10Ato).head? = some ("OPER/" ++ c10Ato.name ++ "//") :=
  ⟨rfl, c10_oper_line_uses_display_name c10Ato rfl⟩

/-- C1 counterexample: the migration loader does raise — `ATO.from_dict`
evaluates `data["id"]` (KeyError on the empty mapping), and
`SupportControlEntry.from_dict` is `cls(**data)` (TypeError on an unknown
key), so both inputs fail even though the claim says the loader never
fails on unknown or missing fields. -/
theorem c1_migration_raises_counterexample :
    ATO.from_dict fresh0 (vdict []) = none ∧
    ATO.from_dict fresh0 c1BadInput = none :=
  ⟨rfl, rfl⟩

/-- C2 counterexample: round-tripping an ATO whose stored month is
lower-case changes the month leaf (`jan` becomes `JAN`), so the canonical
round trip is not exact for every value. -/
theorem c2_roundtrip_counterexample :
    ATO.from_dict fresh0 c2BadAto.to_dict = some c2BadAtoNormalized ∧
    c2BadAtoNormalized.header.msg_month ≠ c2BadAto.header.msg_month ∧
    ATO.from_dict fresh0 c2BadAto.to_dict ≠ some c2BadAto :=
  ⟨rfl, by decide, by decide⟩

/-- C3 counterexample: an ATO with one task unit whose amplification and
narrative are blank exports with no `AMPN` line and no `NARR` line at all
(the full line list is shown; no line carries either keyword prefix),
contradicting the claim that both lines are always emitted with `-`. -/
theorem c3_ampn_narr_missing_counterexample :
    c3Ato.task_units ≠ [] ∧
    exportLines c3Ato =
      ["OPER/OP//", "MSGID/ATO/UNKNOWN/000/JAN//", "AKNLDG/NO//",
       "TIMEFRAM/FROM:NA/TO:NA//", "HEADING/TASKING//", "//TASKUNITS",
       "TASKUNIT/NA/ICAO:NA//", "AMSNDAT/-/-/-/-/-/-/-/DEPLOC:-/ARRLOC:-//",
       "MSNACFT/NA/ACTYP:NA/-/-/-/-/-/-//",
       "GTGTLOC/-/-/NET:-/NLT:-/-/ID:-/-/-/DMPID:-/-/-/-//",
       "CONTROLA/-/-/PFREQ:-/SFREQ:-/NAME:-//",
       "DECL/AUTH:N/A;PREP:N/A;REL:N/A//"] ∧
    (exportLines c3Ato).countP (fun l => l.data.take 5 = ampnPrefixChars) = 0 ∧
    (exportLines c3Ato).countP (fun l => l.data.take 5 = narrPrefixChars) = 0 :=
  ⟨by decide, rfl, by decide, by decide⟩

/-- C6 counterexample: validation output depends on the ambient clock (the
same document validates differently in 2024 and 2025, through the current
year appended to short DTG values), `TaskUnit.from_dict` mutates the
mapping it is given (`setdefault` inserts a `narrative` key), and
`Allotment.from_dict` on an id-less mapping depends on the fresh-identity
source, so equal inputs do not give equal outputs. -/
theorem c6_purity_counterexample :
    c6Ato.validate 2024 ≠ c6Ato.validate 2025 ∧
    (TaskUnit.from_dict_state (vdict c6RemInput)).map Prod.snd =
      some (vdict [("remarks", vstr "x"), ("narrative", vstr "x")]) ∧
    vdict [("remarks", vstr "x"), ("narrative", vstr "x")] ≠ vdict c6RemInput ∧
    Allotment.from_dict "F1" c6NoIdAllot ≠ Allotment.from_dict "F2" c6NoIdAllot := by
  refine ⟨by decide, rfl, ?_, by decide⟩
  intro e
  simp [c6RemInput] at e

/-- C8 counterexample: with a blank originator the serializer substitutes
`UNKNOWN` into the `MSGID` line instead of dropping the empty member, so
the line is not the slash-join of the non-empty members. -/
theorem c8_msgid_substitution_counterexample :
    msgidLine c8Header = "MSGID/ATO/UNKNOWN/001/JAN//" ∧
    specMsgidLine c8Header = "MSGID/ATO/001/JAN//" ∧
    msgidLine c8Header ≠ specMsgidLine c8Header :=
  ⟨rfl, rfl, by decide⟩

/-- C3 amended: for every task unit the serializer emits an `AMPN` line
(carrying the amplification verbatim) exactly when the amplification is
non-blank, and a `NARR` line exactly when the narrative is non-blank; a
blank field produces no line (there is no `-` placeholder). -/
theorem c3_ampn_narr_conditional (als : List Allotment) (u : TaskUnit) :
    (u.amplification ≠ "" → ("AMPN/" ++ u.amplification ++ "//") ∈ taskUnitLines als u) ∧
    (u.amplification = "" →
      (taskUnitLines als u).countP (fun l => l.data.take 5 = ampnPrefixChars) = 0) ∧
    (u.narrative ≠ "" → ("NARR/" ++ u.narrative ++ "//") ∈ taskUnitLines als u) ∧
    (u.narrative = "" →
      (taskUnitLines als u).countP (fun l => l.data.take 5 = narrPrefixChars) = 0) := by
  refine ⟨fun ha => ?_, fun ha => ?_, fun hn => ?_, fun hn => ?_⟩
  · simp [taskUnitLines, ha]
  · by_cases hn : u.narrative = "" <;> simp [taskUnitLines, ha, hn] <;> decide
  · simp [taskUnitLines, hn]
  · by_cases ha : u.amplification = "" <;> simp [taskUnitLines, ha, hn] <;> decide

/-- C3 witness: the amended behaviour at concrete task units. -/
theorem c3_ampn_narr_conditional_witness :
    ("AMPN/" ++ c3UnitFilled.amplification ++ "//") ∈ taskUnitLines [] c3UnitFilled ∧
    ("NARR/" ++ c3UnitFilled.narrative ++ "//") ∈ taskUnitLines [] c3UnitFilled ∧
    (taskUnitLines [] c3UnitBlank).countP (fun l => l.data.take 5 = ampnPrefixChars) = 0 ∧
    (taskUnitLines [] c3UnitBlank).countP (fun l => l.data.take 5 = narrPrefixChars) = 0 :=
  ⟨(c3_ampn_narr_conditional [] c3UnitFilled).1 (by decide),
   (c3_ampn_narr_conditional [] c3UnitFilled).2.2.1 (by decide),
   (c3_ampn_narr_conditional [] c3UnitBlank).2.1 rfl,
   (c3_ampn_narr_conditional [] c3UnitBlank).2.2.2 rfl⟩

/-- C8 amended: the `MSGID` line slash-joins the parts after fixed
substitutions — a blank message-type id becomes `ATO`, a blank originator
`UNKNOWN`, a blank serial `000`, a blank month `JAN` (upper-cased), and
only a blank qualifier is dropped from the join (empty members of the
other four are replaced, not dropped). -/
theorem c8_msgid_line_shape (h : Header) :
    msgidLine h =
      "MSGID/" ++ pyOrStr h.msg_text_format_identifier "ATO" ++ "/" ++
        pyOrStr h.msg_originator "UNKNOWN" ++ "/" ++ pyOrStr h.msg_serial "000" ++
        "/" ++ pyUpper (pyOrStr h.msg_month "JAN") ++
        (if h.msg_qualifier = "" then "" else "/" ++ h.msg_qualifier) ++ "//" := by
  have h1 : pyOrStr h.msg_text_format_identifier "ATO" ≠ "" :=
    pyOrStr_ne_empty (by decide)
  have h2 : pyOrStr h.msg_originator "UNKNOWN" ≠ "" := pyOrStr_ne_empty (by decide)
  have h3 : pyOrStr h.msg_serial "000" ≠ "" := pyOrStr_ne_empty (by decide)
  have h4 : pyUpper (pyOrStr h.msg_month "JAN") ≠ "" := fun e =>
    pyOrStr_ne_empty (by decide) (pyUpper_eq_empty_iff.mp e)
  by_cases hq : h.msg_qualifier = "" <;>
    simp [msgidLine, List.filter, h1, h2, h3, h4, hq, pyOrStr_empty_default,
      pyJoin, String.append_assoc, String.append_empty]

/-- C9 counterexample: an allotment mapping whose `unit_designator` key is
present but empty does not keep the empty current-schema value — the
loader falls back to the legacy `resource_name` value. -/
theorem c9_precedence_counterexample :
    Allotment.from_dict "FRESH" (vdict c9BadInput) =
      some { id := "A1", unit_designator := "LEG" } ∧
    ("LEG" : String) ≠ ("" : String) :=
  ⟨rfl, by decide⟩

/-- C9 amended: where the fallback is by key presence (`data.get` with a
nested default, or `setdefault` leaf expansion), a present current-schema
key wins even when its value is empty — shown for the header operation id
and the task-unit primary-mission-type leaf; where the fallback is
truthiness-based (the Allotment field chains), an empty current value
falls back to the legacy value, and a non-empty current value wins. -/
theorem c9_current_schema_precedence :
    (∀ (es : List (String × Val)) (s t : String) (h : Header),
        assoc es "operation_identification_data" = some (vstr s) →
        assoc es "operation_name" = some (vstr t) →
        Header.from_dict (vdict es) = some h →
        h.operation_identification_data = s) ∧
    (∀ (es ad : List (String × Val)) (u : TaskUnit),
        assoc es "amsndat" = some (vdict ad) →
        assoc ad "primary_mission_type" = some (vstr "") →
        hasKey es "mission_type" = true →
        TaskUnit.from_dict (vdict es) = some u →
        u.amsndat.primary_mission_type = "") ∧
    (∀ (es : List (String × Val)) (t f : String) (al : Allotment),
        assoc es "unit_designator" = some (vstr "") →
        assoc es "resource_name" = some (vstr t) →
        Allotment.from_dict f (vdict es) = some al →
        al.unit_designator = t) ∧
    (∀ (es : List (String × Val)) (s t f : String) (al : Allotment),
        assoc es "unit_designator" = some (vstr s) → s ≠ "" →
        assoc es "resource_name" = some (vstr t) →
        Allotment.from_dict f (vdict es) = some al →
        al.unit_designator = s) := by
  refine ⟨?_, ?_, ?_, ?_⟩
  · intro es s t h hcur hleg hfd
    have hne : es ≠ [] := assoc_ne_nil hcur
    rw [Header.from_dict] at hfd
    rw [truthy_vdict_of_ne hne] at hfd
    simp only [Bool.true_eq_false, if_false] at hfd
    rw [strGet2D, hcur] at hfd
    simp only [Option.pure_def, Option.bind_eq_bind, Option.some_bind,
      Option.bind_eq_some, Option.some.injEq] at hfd
    obtain ⟨f2, _, f3, _, f4, _, f5, _, f6, _, f7, _, f8, _, f9, _, f10, _, heq⟩ := hfd
    subst heq
    rfl
  · intro es ad u had hpm hleg hfd
    have hne : es ≠ [] := assoc_ne_nil had
    rw [TaskUnit.from_dict] at hfd
    simp only [Option.map_eq_some'] at hfd
    obtain ⟨p, hst, hp⟩ := hfd
    rw [TaskUnit.from_dict_state] at hst
    rw [truthy_vdict_of_ne hne] at hst
    simp only [Bool.true_eq_false, if_false] at hst
    rw [show pyGet es "amsndat" = vdict ad by simp [pyGet, had]] at hst
    rw [pyOr_dict_empty] at hst
    obtain ⟨ad1, had1, hst⟩ := bind_some_inv hst
    rw [show asDict (vdict ad) = some ad from rfl, Option.some.injEq] at had1
    subst had1
    obtain ⟨md, hmd, hst⟩ := bind_some_inv hst
    obtain ⟨gd, hgd, hst⟩ := bind_some_inv hst
    obtain ⟨cd, hcd, hst⟩ := bind_some_inv hst
    obtain ⟨aid, haid, hst⟩ := bind_some_inv hst
    obtain ⟨A, hA, hst⟩ := bind_some_inv hst
    obtain ⟨M, hM, hst⟩ := bind_some_inv hst
    obtain ⟨G, hG, hst⟩ := bind_some_inv hst
    obtain ⟨C, hC, hst⟩ := bind_some_inv hst
    obtain ⟨ampn, hampn, hst⟩ := bind_some_inv hst
    obtain ⟨narr, hnarr, hst⟩ := bind_some_inv hst
    obtain ⟨un, hun, hst⟩ := bind_some_inv hst
    obtain ⟨aty, haty, hst⟩ := bind_some_inv hst
    have hA2 : A.primary_mission_type = "" := by
      rw [amsndat_from_dict_eq hA]
      show sfield _ "primary_mission_type" = ""
      rw [sfield_ite_setdefault_ne (by decide)]
      simp only [hleg, eq_self_iff_true, if_true]
      rw [setdefault_of_present _ (hasKey_of_assoc hpm)]
      rw [sfield_of_assoc hpm]
    cases hst
    rw [← hp]
    exact hA2
  · intro es t f al hcur hleg hfd
    have hne : es ≠ [] := assoc_ne_nil hcur
    rw [Allotment.from_dict] at hfd
    rw [truthy_vdict_of_ne hne] at hfd
    simp only [Bool.true_eq_false, if_false] at hfd
    by_cases hid : hasKey es "id" = true <;>
      simp only [hid, eq_self_iff_true, if_true, Bool.false_eq_true, if_false] at hfd
    · obtain ⟨i, hi, hfd⟩ := bind_some_inv hfd
      obtain ⟨unitv, hu, hfd⟩ := bind_some_inv hfd
      rw [show pyGet es "unit_designator" = vstr "" by simp [pyGet, hcur]] at hu
      rw [show pyGetD es "resource_name" (vstr "") = vstr t by simp [pyGetD, hleg]] at hu
      rw [show pyOr (vstr "") (vstr t) = vstr t by simp [pyOr, truthy]] at hu
      rw [show asStr (vstr t) = some t from rfl, Option.some.injEq] at hu
      subst hu
      obtain ⟨ic, hic, hfd⟩ := bind_some_inv hfd
      obtain ⟨cnt, hcnt, hfd⟩ := bind_some_inv hfd
      obtain ⟨aty, haty, hfd⟩ := bind_some_inv hfd
      cases hfd
      rfl
    · obtain ⟨i, hi, hfd⟩ := bind_some_inv hfd
      obtain ⟨unitv, hu, hfd⟩ := bind_some_inv hfd
      rw [pyGet_append_single_ne (by decide), pyGetD_append_single_ne (by decide)] at hu
      rw [show pyGet es "unit_designator" = vstr "" by simp [pyGet, hcur]] at hu
      rw [show pyGetD es "resource_name" (vstr "") = vstr t by simp [pyGetD, hleg]] at hu
      rw [show pyOr (vstr "") (vstr t) = vstr t by simp [pyOr, truthy]] at hu
      rw [show asStr (vstr t) = some t from rfl, Option.some.injEq] at hu
      subst hu
      obtain ⟨ic, hic, hfd⟩ := bind_some_inv hfd
      obtain ⟨cnt, hcnt, hfd⟩ := bind_some_inv hfd
      obtain ⟨aty, haty, hfd⟩ := bind_some_inv hfd
      cases hfd
      rfl
  · intro es s t f al hcur hs hleg hfd
    have hne : es ≠ [] := assoc_ne_nil hcur
    rw [Allotment.from_dict] at hfd
    rw [truthy_vdict_of_ne hne] at hfd
    simp only [Bool.true_eq_false, if_false] at hfd
    by_cases hid : hasKey es "id" = true <;>
      simp only [hid, eq_self_iff_true, if_true, Bool.false_eq_true, if_false] at hfd
    · obtain ⟨i, hi, hfd⟩ := bind_some_inv hfd
      obtain ⟨unitv, hu, hfd⟩ := bind_some_inv hfd
      rw [show pyGet es "unit_designator" = vstr s by simp [pyGet, hcur]] at hu
      rw [show pyOr (vstr s) (pyGetD es "resource_name" (vstr "")) = vstr s by
        simp [pyOr, truthy, hs]] at hu
      rw [show asStr (vstr s) = some s from rfl, Option.some.injEq] at hu
      subst hu
      obtain ⟨ic, hic, hfd⟩ := bind_some_inv hfd
      obtain ⟨cnt, hcnt, hfd⟩ := bind_some_inv hfd
      obtain ⟨aty, haty, hfd⟩ := bind_some_inv hfd
      cases hfd
      rfl
    · obtain ⟨i, hi, hfd⟩ := bind_some_inv hfd
      obtain ⟨unitv, hu, hfd⟩ := bind_some_inv hfd
      rw [pyGet_append_single_ne (by decide)] at hu
      rw [show pyGet es "unit_designator" = vstr s by simp [pyGet, hcur]] at hu
      rw [show pyOr (vstr s) (pyGetD (es ++ [("id", vstr f)]) "resource_name" (vstr "")) =
            vstr s by simp [pyOr, truthy, hs]] at hu
      rw [show asStr (vstr s) = some s from rfl, Option.some.injEq] at hu
      subst hu
      obtain ⟨ic, hic, hfd⟩ := bind_some_inv hfd
      obtain ⟨cnt, hcnt, hfd⟩ := bind_some_inv hfd
      obtain ⟨aty, haty, hfd⟩ := bind_some_inv hfd
      cases hfd
      rfl

/-- C9 witness: the precedence rules at concrete inputs (the loaded values
are computed by `rfl`). -/
theorem c9_current_schema_precedence_witness :
    ({} : Header).operation_identification_data = "" ∧
    ({} : TaskUnit).amsndat.primary_mission_type = "" ∧
    (Allotment.mk "A1" "LEG" "" "" "").unit_designator = "LEG" ∧
    (Allotment.mk "A1" "CUR" "" "" "").unit_designator = "CUR" :=
  ⟨c9_current_schema_precedence.1 c9HdrInput "" "OLD" {} rfl rfl rfl,
   c9_current_schema_precedence.2.1 c9TuInput [("primary_mission_type", vstr "")] {}
     rfl rfl rfl rfl,
   c9_current_schema_precedence.2.2.1 c9BadInput "LEG" "FRESH"
     (Allotment.mk "A1" "LEG" "" "" "") rfl rfl rfl,
   c9_current_schema_precedence.2.2.2 c9Cur2Input "CUR" "LEG" "FRESH"
     (Allotment.mk "A1" "CUR" "" "" "") rfl (by decide) rfl rfl⟩

/-- C1 amended: the migration loader never fails and resolves missing
fields to type defaults, provided the mapping lies in the loader's
well-formedness domain: the root binds `"id"` to a string, the flat
entities reached through `cls(**data)` (task-unit segments, support
entries, spins, footer) bind only declared field names, and scalar leaves
are strings; unknown keys at the root, header, allotment and task-unit
levels are ignored.  A root mapping holding only an `"id"` loads to the
all-defaults ATO. -/
theorem c1_migration_total_on_wellformed :
    (∀ (v : Val) (fresh : Nat → String), wfATOVal v = true →
        (ATO.from_dict fresh v).isSome = true) ∧
    (∀ (s : String) (fresh : Nat → String),
        ATO.from_dict fresh (vdict [("id", vstr s)]) =
          some { id := s, name := "ATO" }) := by
  constructor
  · intro v fresh hwf
    exact ato_from_dict_total hwf fresh
  · intro s fresh
    rfl

/-- C1 witness: totality at a concrete mapping with unknown keys and a
legacy-shaped task unit, and the defaults-only load. -/
theorem c1_migration_total_on_wellformed_witness :
    wfATOVal c1WfInput = true ∧
    (ATO.from_dict fresh0 c1WfInput).isSome = true ∧
    ATO.from_dict fresh0 (vdict [("id", vstr "W")]) = some { id := "W", name := "ATO" } :=
  ⟨by decide, c1_migration_total_on_wellformed.1 c1WfInput fresh0 (by decide),
   c1_migration_total_on_wellformed.2 "W" fresh0⟩

/-- C7 witness: the oldest flat legacy record at concrete values. -/
theorem c7_legacy_flat_migration_witness :
    ∃ u, TaskUnit.from_dict (vdict c7Input) = some u ∧
      u.amsndat.primary_mission_type = "CAS" ∧
      u.msnacft.aircraft_call_sign = "VIPER" ∧
      u.gtgtloc.target_facility_name = "BRIDGE" :=
  c7_legacy_flat_migration c7Input "CAS" "VIPER" "BRIDGE" (by decide) rfl rfl rfl

/-- C6 amended: the task-unit loader mutates its input mapping only
through the legacy `setdefault` expansion.  When none of the eight legacy
keys (`mission_type`, `callsign`, `remarks`, `target`, `control_agency`,
`tail_numbers`, `iff_code`, `takeoff_time_utc`) is present, a successful
load returns the input mapping exactly as it was. -/
theorem c6_no_input_mutation_without_legacy_keys :
    ∀ (es : List (String × Val)) (p : TaskUnit × Val),
      hasKey es "mission_type" = false → hasKey es "callsign" = false →
      hasKey es "remarks" = false → hasKey es "target" = false →
      hasKey es "control_agency" = false → hasKey es "tail_numbers" = false →
      hasKey es "iff_code" = false → hasKey es "takeoff_time_utc" = false →
      TaskUnit.from_dict_state (vdict es) = some p →
      p.2 = vdict es := by
  intro es p h1 h2 h3 h4 h5 h6 h7 h8 hst
  by_cases hne : es = []
  · subst hne
    rw [show TaskUnit.from_dict_state (vdict []) =
        some (({} : TaskUnit), vdict []) from rfl, Option.some.injEq] at hst
    rw [← hst]
  · rw [TaskUnit.from_dict_state, truthy_vdict_of_ne hne] at hst
    simp only [Bool.true_eq_false, if_false] at hst
    simp only [h1, h2, h3, h4, h5, h6, h7, h8, Bool.false_eq_true,
      if_false] at hst
    obtain ⟨ad, had, hst⟩ := bind_some_inv hst
    obtain ⟨md, hmd, hst⟩ := bind_some_inv hst
    obtain ⟨gd, hgd, hst⟩ := bind_some_inv hst
    obtain ⟨cd, hcd, hst⟩ := bind_some_inv hst
    obtain ⟨aid, haid, hst⟩ := bind_some_inv hst
    obtain ⟨A, hA, hst⟩ := bind_some_inv hst
    obtain ⟨M, hM, hst⟩ := bind_some_inv hst
    obtain ⟨G, hG, hst⟩ := bind_some_inv hst
    obtain ⟨C, hC, hst⟩ := bind_some_inv hst
    obtain ⟨ampn, hampn, hst⟩ := bind_some_inv hst
    obtain ⟨narr, hnarr, hst⟩ := bind_some_inv hst
    obtain ⟨un, hun, hst⟩ := bind_some_inv hst
    obtain ⟨aty, haty, hst⟩ := bind_some_inv hst
    rw [Option.some.injEq] at hst
    subst hst
    show vdict _ = vdict es
    rw [updAlias_self had, updAlias_self hmd, updAlias_self hgd,
      updAlias_self hcd]

/-- C6 witness: a mapping without legacy keys loads with its final state
equal to the input. -/
theorem c6_no_input_mutation_without_legacy_keys_witness :
    (({ allotment_id := "A", unit_name := "U" } : TaskUnit),
        vdict c6CleanInput).2 = vdict c6CleanInput :=
  c6_no_input_mutation_without_legacy_keys c6CleanInput
    ({ allotment_id := "A", unit_name := "U" }, vdict c6CleanInput)
    rfl rfl rfl rfl rfl rfl rfl rfl rfl

/-- C5: a task unit whose non-blank allotment reference matches no
allotment identity yields exactly one unresolved-reference message for its
index — in its own loop body and in the full validation output of the
document — and zero missing-reference messages, the two messages being
distinct; and the serializer still emits for that unit a `TASKUNIT` line
built from the unit's own legacy `unit_name` with `ICAO` rendered as `NA`,
and an `MSNACFT` line whose `ACTYP` fragment uses the unit's own legacy
`aircraft_type`. -/
theorem c5_unresolved_reference_and_fallback :
    (∀ (year idx : Nat) (ids : List String) (u : TaskUnit),
        pyStrip u.allotment_id ≠ "" →
        ids.contains u.allotment_id = false →
        (taskUnitErrors year ids idx u).count (tuUnresolvedRefMsg idx) = 1 ∧
        (taskUnitErrors year ids idx u).count (tuMissingRefMsg idx) = 0 ∧
        tuUnresolvedRefMsg idx ≠ tuMissingRefMsg idx) ∧
    (∀ (a : ATO) (year i : Nat) (u : TaskUnit),
        a.task_units[i]? = some u →
        pyStrip u.allotment_id ≠ "" →
        (a.allotments.map fun al => al.id).contains u.allotment_id = false →
        (a.validate year).count (tuUnresolvedRefMsg (i + 1)) = 1) ∧
    (∀ (a : ATO) (u : TaskUnit),
        u ∈ a.task_units →
        (a.allotments.map fun al => al.id).contains u.allotment_id = false →
        ("TASKUNIT/" ++ orNA u.unit_name ++ "/ICAO:NA//") ∈ exportLines a ∧
        ("MSNACFT/" ++ pyJoin "/"
            [dashOr (if u.msnacft.number_of_aircraft = "" then pyOrStr "NA" "-"
                     else u.msnacft.number_of_aircraft),
             "ACTYP:" ++ orNA (orNA u.aircraft_type),
             dashOr u.msnacft.aircraft_call_sign,
             dashOr u.msnacft.primary_configuration_code,
             dashOr u.msnacft.secondary_configuration_code,
             iffFragment "1" u.msnacft.iff_mode1,
             iffFragment "2" u.msnacft.iff_mode2,
             iffFragment "3" u.msnacft.iff_mode3] ++ "//") ∈ exportLines a) := by
  refine ⟨?_, ?_, ?_⟩
  · intro year idx ids u h1 h2
    exact ⟨taskUnitErrors_unres_on h1 h2, taskUnitErrors_missing_zero h1,
      idxHead_ne (by decide) (by decide) (Or.inr (by decide))⟩
  · intro a year i u hget h1 h2
    exact validate_count_unres hget h1 h2
  · intro a u hmem hcont
    have hsel : lookupAllotment a.allotments u.allotment_id = none :=
      lookupAllotment_none hcont
    have hfb := taskUnitLines_fallback (u := u) hsel
    exact ⟨mem_exportLines_of_taskUnitLines hmem hfb.1,
      mem_exportLines_of_taskUnitLines hmem hfb.2⟩

/-- C5 witness: the single dangling-reference task unit of `c5Ato` at
concrete inputs. -/
theorem c5_unresolved_reference_and_fallback_witness :
    (taskUnitErrors 2024 [] 1 c5Unit).count (tuUnresolvedRefMsg 1) = 1 ∧
    (taskUnitErrors 2024 [] 1 c5Unit).count (tuMissingRefMsg 1) = 0 ∧
    tuUnresolvedRefMsg 1 ≠ tuMissingRefMsg 1 ∧
    (c5Ato.validate 2024).count (tuUnresolvedRefMsg 1) = 1 ∧
    ("TASKUNIT/" ++ orNA c5Unit.unit_name ++ "/ICAO:NA//") ∈ exportLines c5Ato :=
  have h1 := c5_unresolved_reference_and_fallback.1 2024 1 [] c5Unit (by decide) rfl
  ⟨h1.1, h1.2.1, h1.2.2,
   c5_unresolved_reference_and_fallback.2.1 c5Ato 2024 0 c5Unit rfl (by decide) rfl,
   (c5_unresolved_reference_and_fallback.2.2 c5Ato c5Unit
     (List.mem_cons_self _ _) rfl).1⟩

/-- C2 amended: the canonical-to-canonical round trip is exact exactly on
already-normalized documents: whenever the header month and
acknowledgement flag are non-blank and upper-case, and every allotment
carries an upper-case ICAO and stripped asset count and aircraft type,
`ATO.from_dict (v.to_dict)` returns `v` itself — identities, nested
allotment identities and every leaf included.  (Outside this set the
loader normalizes, as the counterexample shows.) -/
theorem c2_roundtrip_canonical :
    ∀ (a : ATO) (fresh : Nat → String),
      a.header.msg_month ≠ "" →
      pyUpper a.header.msg_month = a.header.msg_month →
      a.header.acknowledgement_required ≠ "" →
      pyUpper a.header.acknowledgement_required =
        a.header.acknowledgement_required →
      (∀ al ∈ a.allotments,
        pyUpper al.icao_base_code = al.icao_base_code ∧
        pyStrip al.asset_count = al.asset_count ∧
        pyStrip al.aircraft_type_model = al.aircraft_type_model) →
      ATO.from_dict fresh a.to_dict = some a := by
  intro a fresh hm1 hm2 ha1 ha2 hallot
  show (Header.from_dict a.header.to_dict >>= fun header =>
        (((a.allotments.map Allotment.to_dict).enumFrom 0).mapM fun p =>
          Allotment.from_dict (fresh p.1) p.2) >>= fun allotments =>
        ((a.task_units.map TaskUnit.to_dict).mapM TaskUnit.from_dict) >>=
          fun task_units =>
        ((a.support_control.map SupportControlEntry.to_dict).mapM
          SupportControlEntry.from_dict) >>= fun support_control =>
        ((a.spins.map SpinInstruction.to_dict).mapM SpinInstruction.from_dict) >>=
          fun spins =>
        Footer.from_dict a.footer.to_dict >>= fun footer =>
        some { id := a.id, name := a.name, header := header,
               allotments := allotments, task_units := task_units,
               support_control := support_control, spins := spins,
               footer := footer }) = some a
  rw [header_roundtrip a.header hm1 hm2 ha1 ha2,
    allot_mapM_roundtrip fresh a.allotments 0 hallot,
    tus_mapM_roundtrip a.task_units,
    support_mapM_roundtrip a.support_control,
    spins_mapM_roundtrip a.spins,
    footer_roundtrip a.footer]
  rfl

/-- C2 witness: the populated canonical ATO round-trips exactly. -/
theorem c2_roundtrip_canonical_witness :
    (c2GoodAto.header.msg_month ≠ "" ∧
     pyUpper c2GoodAto.header.msg_month = c2GoodAto.header.msg_month ∧
     c2GoodAto.header.acknowledgement_required ≠ "" ∧
     pyUpper c2GoodAto.header.acknowledgement_required =
       c2GoodAto.header.acknowledgement_required) ∧
    ATO.from_dict fresh0 c2GoodAto.to_dict = some c2GoodAto :=
  ⟨⟨by decide, by decide, by decide, by decide⟩,
   c2_roundtrip_canonical c2GoodAto fresh0 (by decide) (by decide) (by decide)
     (by decide) (by decide)⟩

end ATOApp
